import Mathlib

/-!
Verification of the `serde_dyn` type-erasure bridge (files `src/ser.rs`,
`src/de.rs`).  The repository presents a dynamically-dispatchable facade over
any concrete generic serde codec; a single-use "inplace" adapter enum wraps the
concrete codec and stores each call's codec-specific result in itself.

The embedding below is a shallow model translated from the Rust source:

* a concrete generic codec is an abstract record of functions
  (`SerCodec`, `DeCodec`) whose result and sub-serializer types are opaque
  type fields — exactly the role played by `S: serde::Serializer` /
  `D: serde::Deserializer` in the source;
* the inplace adapters (`InplaceSerializer`, `InplaceDeserializer`,
  `InplaceDeserializeSeed`, `InplaceVisitor`, `InplaceSeqAccess`,
  `InplaceMapAccess`, `InplaceEnumAccess`) become inductive state types, and
  every `dyn_*` method becomes a pure function
  `state → args → state × result`, with `mem::take` modelled explicitly
  (it replaces the state by the `None`/default placeholder and yields the old
  state; on a pattern mismatch the old state is discarded);
* machine integers that the bridge merely forwards (`i8`…`i128`,
  `u8`…`u128`, `u32` variant indices, `usize` lengths) are modelled as
  `Int`/`Nat`; `f32`/`f64` values are opaque bit-pattern wrappers, since the
  bridge never computes with any of them.
-/

/-- Opaque carrier for an `f32` value forwarded through the bridge. -/
structure F32 where
  bits : Nat
deriving DecidableEq, Repr

/-- Opaque carrier for an `f64` value forwarded through the bridge. -/
structure F64 where
  bits : Nat
deriving DecidableEq, Repr

/-! ## Status codes (`SerializerError`, `DeserializerError`)

Translated from `src/ser.rs` lines 952–973 and `src/de.rs` lines 1483–1502.
Both are payload-free closed enumerations: one wrong-stage value per facade
kind plus the generic `Error` value. -/

/-- `ser::SerializerError` — the payload-free status code of the producer
facade family. -/
inductive SerializerError where
  | Error
  | Serializer
  | SerializeSeq
  | SerializeTuple
  | SerializeTupleStruct
  | SerializeTupleVariant
  | SerializeMap
  | SerializeStruct
  | SerializeStructVariant
deriving DecidableEq, Repr

/-- `de::DeserializerError` — the payload-free status code of the consumer
facade family. -/
inductive DeserializerError where
  | Error
  | Deserializer
  | DeserializeSeed
  | Visitor
  | SeqAccess
  | MapAccess
  | EnumAccess
  | VariantAccess
deriving DecidableEq, Repr

/-- `SerializerResult<T>` (`src/ser.rs` line 944). -/
abbrev SerializerResult (T : Type) := Except SerializerError T

/-- `DeserializerResult<T>` (`src/de.rs` line 1475). -/
abbrev DeserializerResult (T : Type) := Except DeserializerError T

/-! ## The rich errors (`SerializeError`, `DeserializeError`)

`SerializeError` (`src/ser.rs` lines 1010–1122) is, with the `std`/`alloc`
feature, a `NonNull<String>` whose address either is a tagged encoding of a
`SerializerError` (a without-provenance value produced by `encode`) or points
to a heap-allocated boxed `String`.  We model the payload as the visible sum
of the two cases, and model `encode`/`decode` over `Nat` addresses exactly as
in the source (`ALIGN = mem::align_of::<String>() = 8` on the 64-bit targets
the pointer-tagging scheme is written for, so `ALIGN.trailing_zeros() = 3` and
`ALIGN - 1 = 7`). -/

/-- `mem::align_of::<String>()` on a 64-bit target. -/
def stringAlign : Nat := 8

/-- The discriminant of a `SerializerError` variant (`error as usize`). -/
def SerializerError.disc : SerializerError → Nat
  | .Error => 0
  | .Serializer => 1
  | .SerializeSeq => 2
  | .SerializeTuple => 3
  | .SerializeTupleStruct => 4
  | .SerializeTupleVariant => 5
  | .SerializeMap => 6
  | .SerializeStruct => 7
  | .SerializeStructVariant => 8

/-- `SerializeError::encode` (`src/ser.rs` lines 1036–1040):
`((error as usize) << ALIGN.trailing_zeros()) | (ALIGN - 1)`. -/
def SerializeError.encode (error : SerializerError) : Nat :=
  (error.disc <<< stringAlign.log2) ||| (stringAlign - 1)

/-- `SerializeError::decode` (`src/ser.rs` lines 1042–1075): matches the
address against the nine encoded constants. -/
def SerializeError.decode (error : Nat) : Option SerializerError :=
  if error = SerializeError.encode .Error then some .Error
  else if error = SerializeError.encode .Serializer then some .Serializer
  else if error = SerializeError.encode .SerializeSeq then some .SerializeSeq
  else if error = SerializeError.encode .SerializeTuple then some .SerializeTuple
  else if error = SerializeError.encode .SerializeTupleStruct then some .SerializeTupleStruct
  else if error = SerializeError.encode .SerializeTupleVariant then some .SerializeTupleVariant
  else if error = SerializeError.encode .SerializeMap then some .SerializeMap
  else if error = SerializeError.encode .SerializeStruct then some .SerializeStruct
  else if error = SerializeError.encode .SerializeStructVariant then some .SerializeStructVariant
  else none

/-- The observable content of a `ser::SerializeError`: a without-provenance
tagged address (`statusPtr`), or a real `Box<String>` allocation (`boxed`,
whose address is `ALIGN`-aligned, so its low bits can never collide with the
tag pattern `0b111`). -/
inductive SerializeErrorRepr where
  | statusPtr (addr : Nat)
  | boxed (msg : String)
deriving DecidableEq, Repr

/-- `impl From<SerializerError> for SerializeError` (`src/ser.rs`
lines 1108–1122): stores the encoded address without provenance. -/
def SerializeErrorRepr.fromStatus (value : SerializerError) : SerializeErrorRepr :=
  .statusPtr (SerializeError.encode value)

/-- `SerializeError::into_string` (`src/ser.rs` lines 1077–1086): decode the
address; a recognised tag yields `Err(status)`, otherwise the address is a
real `Box<String>` that is taken out.  (In the model a `statusPtr` that
decodes to `none` cannot arise from the constructors; it is mapped to an
arbitrary string, mirroring that the source would reinterpret the address.) -/
def SerializeErrorRepr.into_string : SerializeErrorRepr → SerializerResult String
  | .statusPtr addr =>
    match SerializeError.decode addr with
    | some error => .error error
    | none => .ok ""
  | .boxed msg => .ok msg

/-- `SerializeError::as_string` (`src/ser.rs` lines 1088–1094): same decode
discipline as `into_string`, borrowing instead of consuming. -/
def SerializeErrorRepr.as_string : SerializeErrorRepr → SerializerResult String
  | .statusPtr addr =>
    match SerializeError.decode addr with
    | some error => .error error
    | none => .ok ""
  | .boxed msg => .ok msg

/-- `de::DeserializeError` (`src/de.rs` lines 1400–1407): a propagated status
code or a boxed custom message. -/
inductive DeserializeError where
  | DeserializerError (error : DeserializerError)
  | Other (msg : String)
deriving DecidableEq, Repr

/-- `DeserializeResult<T>` (`src/de.rs` line 1394). -/
abbrev DeserializeResult (T : Type) := Except DeserializeError T

/-- `SerializeResult<T>` (`src/ser.rs` line 1004). -/
abbrev SerializeResult (T : Type) := Except SerializeErrorRepr T

/-! ## The abstract concrete producer codec

`SerCodec` plays the role of a type `S : serde::Serializer` together with its
seven composite sub-serializers.  Every associated type of the generic
contract is an opaque type field; every method of the generic contract is an
abstract function.  `&mut self` methods of the sub-serializers are modelled
state-passing (`SeqS → … → Except Error SeqS`).  `custom` models
`serde::ser::Error::custom` on `S::Error`, used by `into_ser_error`. -/

structure SerCodec where
  S : Type
  Ok : Type
  Error : Type
  SeqS : Type
  TupleS : Type
  TupleStructS : Type
  TupleVariantS : Type
  MapS : Type
  StructS : Type
  StructVariantS : Type
  /-- opaque payload of a `&dyn Serialize` argument -/
  Val : Type
  /-- opaque payload of a `&dyn fmt::Display` argument -/
  Disp : Type
  serialize_bool : S → Bool → Except Error Ok
  serialize_i8 : S → Int → Except Error Ok
  serialize_i16 : S → Int → Except Error Ok
  serialize_i32 : S → Int → Except Error Ok
  serialize_i64 : S → Int → Except Error Ok
  serialize_i128 : S → Int → Except Error Ok
  serialize_u8 : S → Nat → Except Error Ok
  serialize_u16 : S → Nat → Except Error Ok
  serialize_u32 : S → Nat → Except Error Ok
  serialize_u64 : S → Nat → Except Error Ok
  serialize_u128 : S → Nat → Except Error Ok
  serialize_f32 : S → F32 → Except Error Ok
  serialize_f64 : S → F64 → Except Error Ok
  serialize_char : S → Char → Except Error Ok
  serialize_str : S → String → Except Error Ok
  serialize_bytes : S → List Nat → Except Error Ok
  serialize_none : S → Except Error Ok
  serialize_some : S → Val → Except Error Ok
  serialize_unit : S → Except Error Ok
  serialize_unit_struct : S → String → Except Error Ok
  serialize_unit_variant : S → String → Nat → String → Except Error Ok
  serialize_newtype_struct : S → String → Val → Except Error Ok
  serialize_newtype_variant : S → String → Nat → String → Val → Except Error Ok
  serialize_seq : S → Option Nat → Except Error SeqS
  serialize_tuple : S → Nat → Except Error TupleS
  serialize_tuple_struct : S → String → Nat → Except Error TupleStructS
  serialize_tuple_variant : S → String → Nat → String → Nat → Except Error TupleVariantS
  serialize_map : S → Option Nat → Except Error MapS
  serialize_struct : S → String → Nat → Except Error StructS
  serialize_struct_variant : S → String → Nat → String → Nat → Except Error StructVariantS
  collect_str : S → Disp → Except Error Ok
  is_human_readable : S → Bool
  seq_serialize_element : SeqS → Val → Except Error SeqS
  seq_end : SeqS → Except Error Ok
  tuple_serialize_element : TupleS → Val → Except Error TupleS
  tuple_end : TupleS → Except Error Ok
  tuple_struct_serialize_field : TupleStructS → Val → Except Error TupleStructS
  tuple_struct_end : TupleStructS → Except Error Ok
  tuple_variant_serialize_field : TupleVariantS → Val → Except Error TupleVariantS
  tuple_variant_end : TupleVariantS → Except Error Ok
  map_serialize_key : MapS → Val → Except Error MapS
  map_serialize_value : MapS → Val → Except Error MapS
  map_serialize_entry : MapS → Val → Val → Except Error MapS
  map_end : MapS → Except Error Ok
  struct_serialize_field : StructS → String → Val → Except Error StructS
  struct_skip_field : StructS → String → Except Error StructS
  struct_end : StructS → Except Error Ok
  struct_variant_serialize_field : StructVariantS → String → Val → Except Error StructVariantS
  struct_variant_skip_field : StructVariantS → String → Except Error StructVariantS
  struct_variant_end : StructVariantS → Except Error Ok
  /-- `serde::ser::Error::custom` on `S::Error` (used only by the boundary
  conversion `into_ser_error`). -/
  custom : String → Error

/-! ## The producer bridge `InplaceSerializer` (`src/ser.rs` lines 1182–1206) -/

/-- `ser::InplaceSerializer<S>`: one tag per protocol stage.  `None` is the
`#[default]` placeholder left behind by `mem::take`. -/
inductive InplaceSerializer (C : SerCodec) where
  | None
  | Ok (ok : C.Ok)
  | Error (error : C.Error)
  | Serializer (ser : C.S)
  | SerializeSeq (ser : C.SeqS)
  | SerializeTuple (ser : C.TupleS)
  | SerializeTupleStruct (ser : C.TupleStructS)
  | SerializeTupleVariant (ser : C.TupleVariantS)
  | SerializeMap (ser : C.MapS)
  | SerializeStruct (ser : C.StructS)
  | SerializeStructVariant (ser : C.StructVariantS)

namespace InplaceSerializer

variable {C : SerCodec}

/-- `mem::take(self)`: yields the current state and leaves the `None`
placeholder behind. -/
def mem_take (st : InplaceSerializer C) : InplaceSerializer C × InplaceSerializer C :=
  (st, InplaceSerializer.None)

/-- `InplaceSerializer::write_error` (`src/ser.rs` lines 1209–1212): store the
concrete error and return the generic `Error` status. -/
def write_error (error : C.Error) : InplaceSerializer C × SerializerError :=
  (InplaceSerializer.Error error, SerializerError.Error)

/-- `InplaceSerializer::write_with` (`src/ser.rs` lines 1214–1223): store the
concrete result under the tag built by `f` on success, or under `Error` via
`write_error` on failure. -/
def write_with {T : Type} (f : T → InplaceSerializer C) (r : Except C.Error T) :
    InplaceSerializer C × SerializerResult Unit :=
  match r with
  | .ok ok => (f ok, .ok ())
  | .error error =>
    match write_error (C := C) error with
    | (st, status) => (st, .error status)

/-- Common shape of every terminal `Serializer`-level method
(`src/ser.rs` lines 1227–1433): take the state; if it held the codec, invoke
the concrete call and store via `write_with .Ok`; otherwise the taken state is
dropped and the `Serializer` wrong-stage status is returned. -/
def take_terminal (st : InplaceSerializer C) (call : C.S → Except C.Error C.Ok) :
    InplaceSerializer C × SerializerResult Unit :=
  match st with
  | InplaceSerializer.Serializer ser => write_with InplaceSerializer.Ok (call ser)
  | _ => (InplaceSerializer.None, .error SerializerError.Serializer)

/-- Common shape of the seven composite-opening methods
(`src/ser.rs` lines 1435–1528): like `take_terminal` but the success result is
stored under the composite tag `f` (and the source then returns `Ok(self)`,
modelled as `Ok ()`). -/
def take_open {T : Type} (st : InplaceSerializer C) (f : T → InplaceSerializer C)
    (call : C.S → Except C.Error T) : InplaceSerializer C × SerializerResult Unit :=
  match st with
  | InplaceSerializer.Serializer ser => write_with f (call ser)
  | _ => (InplaceSerializer.None, .error SerializerError.Serializer)

/-- `dyn_serialize_bool` (`src/ser.rs` lines 1227–1233). -/
def dyn_serialize_bool (st : InplaceSerializer C) (v : Bool) :
    InplaceSerializer C × SerializerResult Unit :=
  take_terminal st (fun ser => C.serialize_bool ser v)

/-- `dyn_serialize_i8` (`src/ser.rs` lines 1235–1241). -/
def dyn_serialize_i8 (st : InplaceSerializer C) (v : Int) :
    InplaceSerializer C × SerializerResult Unit :=
  take_terminal st (fun ser => C.serialize_i8 ser v)

/-- `dyn_serialize_i16` (`src/ser.rs` lines 1243–1249). -/
def dyn_serialize_i16 (st : InplaceSerializer C) (v : Int) :
    InplaceSerializer C × SerializerResult Unit :=
  take_terminal st (fun ser => C.serialize_i16 ser v)

/-- `dyn_serialize_i32` (`src/ser.rs` lines 1251–1257). -/
def dyn_serialize_i32 (st : InplaceSerializer C) (v : Int) :
    InplaceSerializer C × SerializerResult Unit :=
  take_terminal st (fun ser => C.serialize_i32 ser v)

/-- `dyn_serialize_i64` (`src/ser.rs` lines 1259–1265). -/
def dyn_serialize_i64 (st : InplaceSerializer C) (v : Int) :
    InplaceSerializer C × SerializerResult Unit :=
  take_terminal st (fun ser => C.serialize_i64 ser v)

/-- `dyn_serialize_i128` (`src/ser.rs` lines 1267–1273). -/
def dyn_serialize_i128 (st : InplaceSerializer C) (v : Int) :
    InplaceSerializer C × SerializerResult Unit :=
  take_terminal st (fun ser => C.serialize_i128 ser v)

/-- `dyn_serialize_u8` (`src/ser.rs` lines 1275–1281). -/
def dyn_serialize_u8 (st : InplaceSerializer C) (v : Nat) :
    InplaceSerializer C × SerializerResult Unit :=
  take_terminal st (fun ser => C.serialize_u8 ser v)

/-- `dyn_serialize_u16` (`src/ser.rs` lines 1283–1289). -/
def dyn_serialize_u16 (st : InplaceSerializer C) (v : Nat) :
    InplaceSerializer C × SerializerResult Unit :=
  take_terminal st (fun ser => C.serialize_u16 ser v)

/-- `dyn_serialize_u32` (`src/ser.rs` lines 1291–1297). -/
def dyn_serialize_u32 (st : InplaceSerializer C) (v : Nat) :
    InplaceSerializer C × SerializerResult Unit :=
  take_terminal st (fun ser => C.serialize_u32 ser v)

/-- `dyn_serialize_u64` (`src/ser.rs` lines 1299–1305). -/
def dyn_serialize_u64 (st : InplaceSerializer C) (v : Nat) :
    InplaceSerializer C × SerializerResult Unit :=
  take_terminal st (fun ser => C.serialize_u64 ser v)

/-- `dyn_serialize_u128` (`src/ser.rs` lines 1307–1313). -/
def dyn_serialize_u128 (st : InplaceSerializer C) (v : Nat) :
    InplaceSerializer C × SerializerResult Unit :=
  take_terminal st (fun ser => C.serialize_u128 ser v)

/-- `dyn_serialize_f32` (`src/ser.rs` lines 1315–1321). -/
def dyn_serialize_f32 (st : InplaceSerializer C) (v : F32) :
    InplaceSerializer C × SerializerResult Unit :=
  take_terminal st (fun ser => C.serialize_f32 ser v)

/-- `dyn_serialize_f64` (`src/ser.rs` lines 1323–1329). -/
def dyn_serialize_f64 (st : InplaceSerializer C) (v : F64) :
    InplaceSerializer C × SerializerResult Unit :=
  take_terminal st (fun ser => C.serialize_f64 ser v)

/-- `dyn_serialize_char` (`src/ser.rs` lines 1331–1337). -/
def dyn_serialize_char (st : InplaceSerializer C) (v : Char) :
    InplaceSerializer C × SerializerResult Unit :=
  take_terminal st (fun ser => C.serialize_char ser v)

/-- `dyn_serialize_str` (`src/ser.rs` lines 1339–1345). -/
def dyn_serialize_str (st : InplaceSerializer C) (v : String) :
    InplaceSerializer C × SerializerResult Unit :=
  take_terminal st (fun ser => C.serialize_str ser v)

/-- `dyn_serialize_bytes` (`src/ser.rs` lines 1347–1353). -/
def dyn_serialize_bytes (st : InplaceSerializer C) (v : List Nat) :
    InplaceSerializer C × SerializerResult Unit :=
  take_terminal st (fun ser => C.serialize_bytes ser v)

/-- `dyn_serialize_none` (`src/ser.rs` lines 1355–1361). -/
def dyn_serialize_none (st : InplaceSerializer C) :
    InplaceSerializer C × SerializerResult Unit :=
  take_terminal st (fun ser => C.serialize_none ser)

/-- `dyn_serialize_some` (`src/ser.rs` lines 1363–1369). -/
def dyn_serialize_some (st : InplaceSerializer C) (value : C.Val) :
    InplaceSerializer C × SerializerResult Unit :=
  take_terminal st (fun ser => C.serialize_some ser value)

/-- `dyn_serialize_unit` (`src/ser.rs` lines 1371–1377). -/
def dyn_serialize_unit (st : InplaceSerializer C) :
    InplaceSerializer C × SerializerResult Unit :=
  take_terminal st (fun ser => C.serialize_unit ser)

/-- `dyn_serialize_unit_struct` (`src/ser.rs` lines 1379–1385). -/
def dyn_serialize_unit_struct (st : InplaceSerializer C) (name : String) :
    InplaceSerializer C × SerializerResult Unit :=
  take_terminal st (fun ser => C.serialize_unit_struct ser name)

/-- `dyn_serialize_unit_variant` (`src/ser.rs` lines 1387–1401). -/
def dyn_serialize_unit_variant (st : InplaceSerializer C)
    (name : String) (variant_index : Nat) (variant : String) :
    InplaceSerializer C × SerializerResult Unit :=
  take_terminal st (fun ser => C.serialize_unit_variant ser name variant_index variant)

/-- `dyn_serialize_newtype_struct` (`src/ser.rs` lines 1403–1416). -/
def dyn_serialize_newtype_struct (st : InplaceSerializer C)
    (name : String) (value : C.Val) :
    InplaceSerializer C × SerializerResult Unit :=
  take_terminal st (fun ser => C.serialize_newtype_struct ser name value)

/-- `dyn_serialize_newtype_variant` (`src/ser.rs` lines 1418–1433). -/
def dyn_serialize_newtype_variant (st : InplaceSerializer C)
    (name : String) (variant_index : Nat) (variant : String) (value : C.Val) :
    InplaceSerializer C × SerializerResult Unit :=
  take_terminal st
    (fun ser => C.serialize_newtype_variant ser name variant_index variant value)

/-- `dyn_collect_str` (`src/ser.rs` lines 1530–1536). -/
def dyn_collect_str (st : InplaceSerializer C) (value : C.Disp) :
    InplaceSerializer C × SerializerResult Unit :=
  take_terminal st (fun ser => C.collect_str ser value)

/-- `dyn_serialize_seq` (`src/ser.rs` lines 1435–1442). -/
def dyn_serialize_seq (st : InplaceSerializer C) (len : Option Nat) :
    InplaceSerializer C × SerializerResult Unit :=
  take_open st InplaceSerializer.SerializeSeq (fun ser => C.serialize_seq ser len)

/-- `dyn_serialize_tuple` (`src/ser.rs` lines 1444–1451). -/
def dyn_serialize_tuple (st : InplaceSerializer C) (len : Nat) :
    InplaceSerializer C × SerializerResult Unit :=
  take_open st InplaceSerializer.SerializeTuple (fun ser => C.serialize_tuple ser len)

/-- `dyn_serialize_tuple_struct` (`src/ser.rs` lines 1453–1467). -/
def dyn_serialize_tuple_struct (st : InplaceSerializer C) (name : String) (len : Nat) :
    InplaceSerializer C × SerializerResult Unit :=
  take_open st InplaceSerializer.SerializeTupleStruct
    (fun ser => C.serialize_tuple_struct ser name len)

/-- `dyn_serialize_tuple_variant` (`src/ser.rs` lines 1469–1485). -/
def dyn_serialize_tuple_variant (st : InplaceSerializer C)
    (name : String) (variant_index : Nat) (variant : String) (len : Nat) :
    InplaceSerializer C × SerializerResult Unit :=
  take_open st InplaceSerializer.SerializeTupleVariant
    (fun ser => C.serialize_tuple_variant ser name variant_index variant len)

/-- `dyn_serialize_map` (`src/ser.rs` lines 1487–1494). -/
def dyn_serialize_map (st : InplaceSerializer C) (len : Option Nat) :
    InplaceSerializer C × SerializerResult Unit :=
  take_open st InplaceSerializer.SerializeMap (fun ser => C.serialize_map ser len)

/-- `dyn_serialize_struct` (`src/ser.rs` lines 1496–1510). -/
def dyn_serialize_struct (st : InplaceSerializer C) (name : String) (len : Nat) :
    InplaceSerializer C × SerializerResult Unit :=
  take_open st InplaceSerializer.SerializeStruct (fun ser => C.serialize_struct ser name len)

/-- `dyn_serialize_struct_variant` (`src/ser.rs` lines 1512–1528). -/
def dyn_serialize_struct_variant (st : InplaceSerializer C)
    (name : String) (variant_index : Nat) (variant : String) (len : Nat) :
    InplaceSerializer C × SerializerResult Unit :=
  take_open st InplaceSerializer.SerializeStructVariant
    (fun ser => C.serialize_struct_variant ser name variant_index variant len)

/-- `dyn_is_human_readable` (`src/ser.rs` lines 1538–1544).  The source takes
`&self`, so the bridge state cannot change; the model is a pure read. -/
def dyn_is_human_readable (st : InplaceSerializer C) : Bool :=
  match st with
  | InplaceSerializer.Serializer ser => C.is_human_readable ser
  | _ => true

end InplaceSerializer

namespace InplaceSerializer

variable {C : SerCodec}

/-- `SerializeSeq::dyn_serialize_element` for `InplaceSerializer`
(`src/ser.rs` lines 1548–1557).  The tag is checked by reference (no
`mem::take`): on success the sub-serializer is mutated in place and the tag is
kept; on concrete failure `write_error` moves the bridge to `Error`; on a
wrong stage the state is left untouched. -/
def seq_dyn_serialize_element (st : InplaceSerializer C) (value : C.Val) :
    InplaceSerializer C × SerializerResult Unit :=
  match st with
  | InplaceSerializer.SerializeSeq ser =>
    match C.seq_serialize_element ser value with
    | .ok ser => (InplaceSerializer.SerializeSeq ser, .ok ())
    | .error error =>
      match write_error (C := C) error with
      | (st, status) => (st, .error status)
  | _ => (st, .error SerializerError.SerializeSeq)

/-- `SerializeSeq::dyn_end` for `InplaceSerializer` (`src/ser.rs`
lines 1559–1567): `mem::take`, then `write_with Ok (ser.end())`. -/
def seq_dyn_end (st : InplaceSerializer C) :
    InplaceSerializer C × SerializerResult Unit :=
  match st with
  | InplaceSerializer.SerializeSeq ser => write_with InplaceSerializer.Ok (C.seq_end ser)
  | _ => (InplaceSerializer.None, .error SerializerError.SerializeSeq)

/-- `SerializeTuple::dyn_serialize_element` (`src/ser.rs` lines 1571–1580). -/
def tuple_dyn_serialize_element (st : InplaceSerializer C) (value : C.Val) :
    InplaceSerializer C × SerializerResult Unit :=
  match st with
  | InplaceSerializer.SerializeTuple ser =>
    match C.tuple_serialize_element ser value with
    | .ok ser => (InplaceSerializer.SerializeTuple ser, .ok ())
    | .error error =>
      match write_error (C := C) error with
      | (st, status) => (st, .error status)
  | _ => (st, .error SerializerError.SerializeTuple)

/-- `SerializeTuple::dyn_end` (`src/ser.rs` lines 1582–1590). -/
def tuple_dyn_end (st : InplaceSerializer C) :
    InplaceSerializer C × SerializerResult Unit :=
  match st with
  | InplaceSerializer.SerializeTuple ser => write_with InplaceSerializer.Ok (C.tuple_end ser)
  | _ => (InplaceSerializer.None, .error SerializerError.SerializeTuple)

/-- `SerializeTupleStruct::dyn_serialize_field` (`src/ser.rs` lines 1594–1603). -/
def tuple_struct_dyn_serialize_field (st : InplaceSerializer C) (value : C.Val) :
    InplaceSerializer C × SerializerResult Unit :=
  match st with
  | InplaceSerializer.SerializeTupleStruct ser =>
    match C.tuple_struct_serialize_field ser value with
    | .ok ser => (InplaceSerializer.SerializeTupleStruct ser, .ok ())
    | .error error =>
      match write_error (C := C) error with
      | (st, status) => (st, .error status)
  | _ => (st, .error SerializerError.SerializeTupleStruct)

/-- `SerializeTupleStruct::dyn_end` (`src/ser.rs` lines 1605–1613). -/
def tuple_struct_dyn_end (st : InplaceSerializer C) :
    InplaceSerializer C × SerializerResult Unit :=
  match st with
  | InplaceSerializer.SerializeTupleStruct ser =>
    write_with InplaceSerializer.Ok (C.tuple_struct_end ser)
  | _ => (InplaceSerializer.None, .error SerializerError.SerializeTupleStruct)

/-- `SerializeTupleVariant::dyn_serialize_field` (`src/ser.rs` lines 1617–1626). -/
def tuple_variant_dyn_serialize_field (st : InplaceSerializer C) (value : C.Val) :
    InplaceSerializer C × SerializerResult Unit :=
  match st with
  | InplaceSerializer.SerializeTupleVariant ser =>
    match C.tuple_variant_serialize_field ser value with
    | .ok ser => (InplaceSerializer.SerializeTupleVariant ser, .ok ())
    | .error error =>
      match write_error (C := C) error with
      | (st, status) => (st, .error status)
  | _ => (st, .error SerializerError.SerializeTupleVariant)

/-- `SerializeTupleVariant::dyn_end` (`src/ser.rs` lines 1628–1636). -/
def tuple_variant_dyn_end (st : InplaceSerializer C) :
    InplaceSerializer C × SerializerResult Unit :=
  match st with
  | InplaceSerializer.SerializeTupleVariant ser =>
    write_with InplaceSerializer.Ok (C.tuple_variant_end ser)
  | _ => (InplaceSerializer.None, .error SerializerError.SerializeTupleVariant)

/-- `SerializeMap::dyn_serialize_key` (`src/ser.rs` lines 1640–1649). -/
def map_dyn_serialize_key (st : InplaceSerializer C) (key : C.Val) :
    InplaceSerializer C × SerializerResult Unit :=
  match st with
  | InplaceSerializer.SerializeMap ser =>
    match C.map_serialize_key ser key with
    | .ok ser => (InplaceSerializer.SerializeMap ser, .ok ())
    | .error error =>
      match write_error (C := C) error with
      | (st, status) => (st, .error status)
  | _ => (st, .error SerializerError.SerializeMap)

/-- `SerializeMap::dyn_serialize_value` (`src/ser.rs` lines 1651–1660). -/
def map_dyn_serialize_value (st : InplaceSerializer C) (value : C.Val) :
    InplaceSerializer C × SerializerResult Unit :=
  match st with
  | InplaceSerializer.SerializeMap ser =>
    match C.map_serialize_value ser value with
    | .ok ser => (InplaceSerializer.SerializeMap ser, .ok ())
    | .error error =>
      match write_error (C := C) error with
      | (st, status) => (st, .error status)
  | _ => (st, .error SerializerError.SerializeMap)

/-- `SerializeMap::dyn_serialize_entry` (`src/ser.rs` lines 1662–1675). -/
def map_dyn_serialize_entry (st : InplaceSerializer C) (key value : C.Val) :
    InplaceSerializer C × SerializerResult Unit :=
  match st with
  | InplaceSerializer.SerializeMap ser =>
    match C.map_serialize_entry ser key value with
    | .ok ser => (InplaceSerializer.SerializeMap ser, .ok ())
    | .error error =>
      match write_error (C := C) error with
      | (st, status) => (st, .error status)
  | _ => (st, .error SerializerError.SerializeMap)

/-- `SerializeMap::dyn_end` (`src/ser.rs` lines 1677–1685). -/
def map_dyn_end (st : InplaceSerializer C) :
    InplaceSerializer C × SerializerResult Unit :=
  match st with
  | InplaceSerializer.SerializeMap ser => write_with InplaceSerializer.Ok (C.map_end ser)
  | _ => (InplaceSerializer.None, .error SerializerError.SerializeMap)

/-- `SerializeStruct::dyn_serialize_field` (`src/ser.rs` lines 1689–1702). -/
def struct_dyn_serialize_field (st : InplaceSerializer C) (key : String) (value : C.Val) :
    InplaceSerializer C × SerializerResult Unit :=
  match st with
  | InplaceSerializer.SerializeStruct ser =>
    match C.struct_serialize_field ser key value with
    | .ok ser => (InplaceSerializer.SerializeStruct ser, .ok ())
    | .error error =>
      match write_error (C := C) error with
      | (st, status) => (st, .error status)
  | _ => (st, .error SerializerError.SerializeStruct)

/-- `SerializeStruct::dyn_skip_field` (`src/ser.rs` lines 1704–1712). -/
def struct_dyn_skip_field (st : InplaceSerializer C) (key : String) :
    InplaceSerializer C × SerializerResult Unit :=
  match st with
  | InplaceSerializer.SerializeStruct ser =>
    match C.struct_skip_field ser key with
    | .ok ser => (InplaceSerializer.SerializeStruct ser, .ok ())
    | .error error =>
      match write_error (C := C) error with
      | (st, status) => (st, .error status)
  | _ => (st, .error SerializerError.SerializeStruct)

/-- `SerializeStruct::dyn_end` (`src/ser.rs` lines 1714–1722). -/
def struct_dyn_end (st : InplaceSerializer C) :
    InplaceSerializer C × SerializerResult Unit :=
  match st with
  | InplaceSerializer.SerializeStruct ser => write_with InplaceSerializer.Ok (C.struct_end ser)
  | _ => (InplaceSerializer.None, .error SerializerError.SerializeStruct)

/-- `SerializeStructVariant::dyn_serialize_field` (`src/ser.rs` lines 1726–1739). -/
def struct_variant_dyn_serialize_field (st : InplaceSerializer C)
    (key : String) (value : C.Val) :
    InplaceSerializer C × SerializerResult Unit :=
  match st with
  | InplaceSerializer.SerializeStructVariant ser =>
    match C.struct_variant_serialize_field ser key value with
    | .ok ser => (InplaceSerializer.SerializeStructVariant ser, .ok ())
    | .error error =>
      match write_error (C := C) error with
      | (st, status) => (st, .error status)
  | _ => (st, .error SerializerError.SerializeStructVariant)

/-- `SerializeStructVariant::dyn_skip_field` (`src/ser.rs` lines 1741–1749). -/
def struct_variant_dyn_skip_field (st : InplaceSerializer C) (key : String) :
    InplaceSerializer C × SerializerResult Unit :=
  match st with
  | InplaceSerializer.SerializeStructVariant ser =>
    match C.struct_variant_skip_field ser key with
    | .ok ser => (InplaceSerializer.SerializeStructVariant ser, .ok ())
    | .error error =>
      match write_error (C := C) error with
      | (st, status) => (st, .error status)
  | _ => (st, .error SerializerError.SerializeStructVariant)

/-- `SerializeStructVariant::dyn_end` (`src/ser.rs` lines 1751–1759). -/
def struct_variant_dyn_end (st : InplaceSerializer C) :
    InplaceSerializer C × SerializerResult Unit :=
  match st with
  | InplaceSerializer.SerializeStructVariant ser =>
    write_with InplaceSerializer.Ok (C.struct_variant_end ser)
  | _ => (InplaceSerializer.None, .error SerializerError.SerializeStructVariant)

end InplaceSerializer

/-! ## Producer operation labels

`SerOp` enumerates every `Result`-returning operation of the producer facade
family (the `Serializer` trait methods plus the seven composite sub-facade
traits), with its arguments; `SerOp.apply` dispatches to the corresponding
bridge function above.  This lets theorems quantify over "every facade
call". -/

inductive SerOp (C : SerCodec) where
  | serialize_bool (v : Bool)
  | serialize_i8 (v : Int)
  | serialize_i16 (v : Int)
  | serialize_i32 (v : Int)
  | serialize_i64 (v : Int)
  | serialize_i128 (v : Int)
  | serialize_u8 (v : Nat)
  | serialize_u16 (v : Nat)
  | serialize_u32 (v : Nat)
  | serialize_u64 (v : Nat)
  | serialize_u128 (v : Nat)
  | serialize_f32 (v : F32)
  | serialize_f64 (v : F64)
  | serialize_char (v : Char)
  | serialize_str (v : String)
  | serialize_bytes (v : List Nat)
  | serialize_none
  | serialize_some (value : C.Val)
  | serialize_unit
  | serialize_unit_struct (name : String)
  | serialize_unit_variant (name : String) (variant_index : Nat) (variant : String)
  | serialize_newtype_struct (name : String) (value : C.Val)
  | serialize_newtype_variant (name : String) (variant_index : Nat) (variant : String)
      (value : C.Val)
  | collect_str (value : C.Disp)
  | serialize_seq (len : Option Nat)
  | serialize_tuple (len : Nat)
  | serialize_tuple_struct (name : String) (len : Nat)
  | serialize_tuple_variant (name : String) (variant_index : Nat) (variant : String) (len : Nat)
  | serialize_map (len : Option Nat)
  | serialize_struct (name : String) (len : Nat)
  | serialize_struct_variant (name : String) (variant_index : Nat) (variant : String) (len : Nat)
  | seq_element (value : C.Val)
  | seq_end
  | tuple_element (value : C.Val)
  | tuple_end
  | tuple_struct_field (value : C.Val)
  | tuple_struct_end
  | tuple_variant_field (value : C.Val)
  | tuple_variant_end
  | map_key (key : C.Val)
  | map_value (value : C.Val)
  | map_entry (key : C.Val) (value : C.Val)
  | map_end
  | struct_field (key : String) (value : C.Val)
  | struct_skip_field (key : String)
  | struct_end
  | struct_variant_field (key : String) (value : C.Val)
  | struct_variant_skip_field (key : String)
  | struct_variant_end

namespace SerOp

variable {C : SerCodec}

open InplaceSerializer in
/-- Dispatch an operation label to the corresponding bridge function. -/
def apply (op : SerOp C) (st : InplaceSerializer C) :
    InplaceSerializer C × SerializerResult Unit :=
  match op with
  | .serialize_bool v => dyn_serialize_bool st v
  | .serialize_i8 v => dyn_serialize_i8 st v
  | .serialize_i16 v => dyn_serialize_i16 st v
  | .serialize_i32 v => dyn_serialize_i32 st v
  | .serialize_i64 v => dyn_serialize_i64 st v
  | .serialize_i128 v => dyn_serialize_i128 st v
  | .serialize_u8 v => dyn_serialize_u8 st v
  | .serialize_u16 v => dyn_serialize_u16 st v
  | .serialize_u32 v => dyn_serialize_u32 st v
  | .serialize_u64 v => dyn_serialize_u64 st v
  | .serialize_u128 v => dyn_serialize_u128 st v
  | .serialize_f32 v => dyn_serialize_f32 st v
  | .serialize_f64 v => dyn_serialize_f64 st v
  | .serialize_char v => dyn_serialize_char st v
  | .serialize_str v => dyn_serialize_str st v
  | .serialize_bytes v => dyn_serialize_bytes st v
  | .serialize_none => dyn_serialize_none st
  | .serialize_some value => dyn_serialize_some st value
  | .serialize_unit => dyn_serialize_unit st
  | .serialize_unit_struct name => dyn_serialize_unit_struct st name
  | .serialize_unit_variant name vi v => dyn_serialize_unit_variant st name vi v
  | .serialize_newtype_struct name value => dyn_serialize_newtype_struct st name value
  | .serialize_newtype_variant name vi v value =>
    dyn_serialize_newtype_variant st name vi v value
  | .collect_str value => dyn_collect_str st value
  | .serialize_seq len => dyn_serialize_seq st len
  | .serialize_tuple len => dyn_serialize_tuple st len
  | .serialize_tuple_struct name len => dyn_serialize_tuple_struct st name len
  | .serialize_tuple_variant name vi v len => dyn_serialize_tuple_variant st name vi v len
  | .serialize_map len => dyn_serialize_map st len
  | .serialize_struct name len => dyn_serialize_struct st name len
  | .serialize_struct_variant name vi v len => dyn_serialize_struct_variant st name vi v len
  | .seq_element value => seq_dyn_serialize_element st value
  | .seq_end => seq_dyn_end st
  | .tuple_element value => tuple_dyn_serialize_element st value
  | .tuple_end => tuple_dyn_end st
  | .tuple_struct_field value => tuple_struct_dyn_serialize_field st value
  | .tuple_struct_end => tuple_struct_dyn_end st
  | .tuple_variant_field value => tuple_variant_dyn_serialize_field st value
  | .tuple_variant_end => tuple_variant_dyn_end st
  | .map_key key => map_dyn_serialize_key st key
  | .map_value value => map_dyn_serialize_value st value
  | .map_entry key value => map_dyn_serialize_entry st key value
  | .map_end => map_dyn_end st
  | .struct_field key value => struct_dyn_serialize_field st key value
  | .struct_skip_field key => struct_dyn_skip_field st key
  | .struct_end => struct_dyn_end st
  | .struct_variant_field key value => struct_variant_dyn_serialize_field st key value
  | .struct_variant_skip_field key => struct_variant_dyn_skip_field st key
  | .struct_variant_end => struct_variant_dyn_end st

/-- The facade kind of an operation: the wrong-stage status code its `else`
branch returns. -/
def facadeKind : SerOp C → SerializerError
  | .seq_element _ | .seq_end => SerializerError.SerializeSeq
  | .tuple_element _ | .tuple_end => SerializerError.SerializeTuple
  | .tuple_struct_field _ | .tuple_struct_end => SerializerError.SerializeTupleStruct
  | .tuple_variant_field _ | .tuple_variant_end => SerializerError.SerializeTupleVariant
  | .map_key _ | .map_value _ | .map_entry _ _ | .map_end => SerializerError.SerializeMap
  | .struct_field _ _ | .struct_skip_field _ | .struct_end => SerializerError.SerializeStruct
  | .struct_variant_field _ _ | .struct_variant_skip_field _ | .struct_variant_end =>
    SerializerError.SerializeStructVariant
  | _ => SerializerError.Serializer

/-- Whether the operation's `if let` pattern matches the given state: the
stage required by the call. -/
def matchesStage (op : SerOp C) (st : InplaceSerializer C) : Bool :=
  match op, st with
  | .seq_element _, InplaceSerializer.SerializeSeq _
  | .seq_end, InplaceSerializer.SerializeSeq _
  | .tuple_element _, InplaceSerializer.SerializeTuple _
  | .tuple_end, InplaceSerializer.SerializeTuple _
  | .tuple_struct_field _, InplaceSerializer.SerializeTupleStruct _
  | .tuple_struct_end, InplaceSerializer.SerializeTupleStruct _
  | .tuple_variant_field _, InplaceSerializer.SerializeTupleVariant _
  | .tuple_variant_end, InplaceSerializer.SerializeTupleVariant _
  | .map_key _, InplaceSerializer.SerializeMap _
  | .map_value _, InplaceSerializer.SerializeMap _
  | .map_entry _ _, InplaceSerializer.SerializeMap _
  | .map_end, InplaceSerializer.SerializeMap _ => true
  | .struct_field _ _, InplaceSerializer.SerializeStruct _
  | .struct_skip_field _, InplaceSerializer.SerializeStruct _
  | .struct_end, InplaceSerializer.SerializeStruct _
  | .struct_variant_field _ _, InplaceSerializer.SerializeStructVariant _
  | .struct_variant_skip_field _, InplaceSerializer.SerializeStructVariant _
  | .struct_variant_end, InplaceSerializer.SerializeStructVariant _ => true
  | .seq_element _, _ | .seq_end, _ | .tuple_element _, _ | .tuple_end, _
  | .tuple_struct_field _, _ | .tuple_struct_end, _
  | .tuple_variant_field _, _ | .tuple_variant_end, _
  | .map_key _, _ | .map_value _, _ | .map_entry _ _, _ | .map_end, _
  | .struct_field _ _, _ | .struct_skip_field _, _ | .struct_end, _
  | .struct_variant_field _ _, _ | .struct_variant_skip_field _, _
  | .struct_variant_end, _ => false
  | _, InplaceSerializer.Serializer _ => true
  | _, _ => false

/-- Whether the operation begins with `mem::take(self)` (all `Serializer`-level
operations and the seven `dyn_end`s), as opposed to checking the tag by
reference (the element/field/key/value/entry/skip calls). -/
def takesOwnership : SerOp C → Bool
  | .seq_element _ | .tuple_element _ | .tuple_struct_field _ | .tuple_variant_field _
  | .map_key _ | .map_value _ | .map_entry _ _
  | .struct_field _ _ | .struct_skip_field _
  | .struct_variant_field _ _ | .struct_variant_skip_field _ => false
  | _ => true

end SerOp

/-! ## The abstract concrete consumer codec

`DeCodec` bundles the opaque types and abstract operations of the consumer
side: a concrete `D : serde::Deserializer`, a concrete seed
`T : DeserializeSeed` and visitor `V : Visitor`, and concrete access objects
(`A : SeqAccess` / `MapAccess` / `EnumAccess` with its `Variant`).  Arguments
of type `&mut dyn …` that the bridge merely forwards into the concrete call
are opaque handle types (`VisH`, `SeedH`, `DeH`, …).  `&mut self` access
methods are modelled state-passing.  At the dyn call sites the concrete seed
and visitor run against `&mut dyn` adapters whose error type is
`DeserializeError`, so their operations return `Except DeserializeError _`;
the deserializer and access objects keep their own abstract error types. -/

structure DeCodec where
  D : Type
  DError : Type
  /-- opaque `&mut dyn Visitor` handle -/
  VisH : Type
  /-- opaque `&mut dyn DeserializeSeed` handle -/
  SeedH : Type
  /-- opaque `&mut dyn Deserializer` handle -/
  DeH : Type
  /-- opaque `&mut dyn SeqAccess` / `MapAccess` / `EnumAccess` handles -/
  SeqAccessH : Type
  MapAccessH : Type
  EnumAccessH : Type
  SeedT : Type
  SeedV : Type
  VisT : Type
  VisV : Type
  SeqA : Type
  SeqAErr : Type
  MapA : Type
  MapAErr : Type
  EnumA : Type
  EnumAErr : Type
  EnumVar : Type
  deserialize_any : D → VisH → Except DError Unit
  deserialize_bool : D → VisH → Except DError Unit
  deserialize_i8 : D → VisH → Except DError Unit
  deserialize_i16 : D → VisH → Except DError Unit
  deserialize_i32 : D → VisH → Except DError Unit
  deserialize_i64 : D → VisH → Except DError Unit
  deserialize_i128 : D → VisH → Except DError Unit
  deserialize_u8 : D → VisH → Except DError Unit
  deserialize_u16 : D → VisH → Except DError Unit
  deserialize_u32 : D → VisH → Except DError Unit
  deserialize_u64 : D → VisH → Except DError Unit
  deserialize_u128 : D → VisH → Except DError Unit
  deserialize_f32 : D → VisH → Except DError Unit
  deserialize_f64 : D → VisH → Except DError Unit
  deserialize_char : D → VisH → Except DError Unit
  deserialize_str : D → VisH → Except DError Unit
  deserialize_string : D → VisH → Except DError Unit
  deserialize_bytes : D → VisH → Except DError Unit
  deserialize_byte_buf : D → VisH → Except DError Unit
  deserialize_option : D → VisH → Except DError Unit
  deserialize_unit : D → VisH → Except DError Unit
  deserialize_unit_struct : D → String → VisH → Except DError Unit
  deserialize_newtype_struct : D → String → VisH → Except DError Unit
  deserialize_seq : D → VisH → Except DError Unit
  deserialize_tuple : D → Nat → VisH → Except DError Unit
  deserialize_tuple_struct : D → String → Nat → VisH → Except DError Unit
  deserialize_map : D → VisH → Except DError Unit
  deserialize_struct : D → String → List String → VisH → Except DError Unit
  deserialize_enum : D → String → List String → VisH → Except DError Unit
  deserialize_identifier : D → VisH → Except DError Unit
  deserialize_ignored_any : D → VisH → Except DError Unit
  is_human_readable : D → Bool
  /-- `T::deserialize(self, deserializer)` of the concrete seed, driven
  against a `&mut dyn Deserializer` (whose error type is `DeserializeError`). -/
  seed_deserialize : SeedT → DeH → Except DeserializeError SeedV
  visit_bool : VisT → Bool → Except DeserializeError VisV
  visit_i8 : VisT → Int → Except DeserializeError VisV
  visit_i16 : VisT → Int → Except DeserializeError VisV
  visit_i32 : VisT → Int → Except DeserializeError VisV
  visit_i64 : VisT → Int → Except DeserializeError VisV
  visit_i128 : VisT → Int → Except DeserializeError VisV
  visit_u8 : VisT → Nat → Except DeserializeError VisV
  visit_u16 : VisT → Nat → Except DeserializeError VisV
  visit_u32 : VisT → Nat → Except DeserializeError VisV
  visit_u64 : VisT → Nat → Except DeserializeError VisV
  visit_u128 : VisT → Nat → Except DeserializeError VisV
  visit_f32 : VisT → F32 → Except DeserializeError VisV
  visit_f64 : VisT → F64 → Except DeserializeError VisV
  visit_char : VisT → Char → Except DeserializeError VisV
  visit_str : VisT → String → Except DeserializeError VisV
  visit_borrowed_str : VisT → String → Except DeserializeError VisV
  visit_string : VisT → String → Except DeserializeError VisV
  visit_bytes : VisT → List Nat → Except DeserializeError VisV
  visit_borrowed_bytes : VisT → List Nat → Except DeserializeError VisV
  visit_byte_buf : VisT → List Nat → Except DeserializeError VisV
  visit_none : VisT → Except DeserializeError VisV
  visit_some : VisT → DeH → Except DeserializeError VisV
  visit_unit : VisT → Except DeserializeError VisV
  visit_newtype_struct : VisT → DeH → Except DeserializeError VisV
  visit_seq : VisT → SeqAccessH → Except DeserializeError VisV
  visit_map : VisT → MapAccessH → Except DeserializeError VisV
  visit_enum : VisT → EnumAccessH → Except DeserializeError VisV
  seq_next_element_seed : SeqA → SeedH → Except SeqAErr (SeqA × Option Unit)
  seq_size_hint : SeqA → Option Nat
  map_next_key_seed : MapA → SeedH → Except MapAErr (MapA × Option Unit)
  map_next_value_seed : MapA → SeedH → Except MapAErr MapA
  map_next_entry_seed : MapA → SeedH → SeedH → Except MapAErr (MapA × Option Unit)
  map_size_hint : MapA → Option Nat
  enum_variant_seed : EnumA → SeedH → Except EnumAErr EnumVar
  variant_unit_variant : EnumVar → Except EnumAErr Unit
  variant_newtype_variant_seed : EnumVar → SeedH → Except EnumAErr Unit
  variant_tuple_variant : EnumVar → Nat → VisH → Except EnumAErr Unit
  variant_struct_variant : EnumVar → List String → VisH → Except EnumAErr Unit
  /-- `serde::de::Error::custom` on `D::Error` (used only by the boundary
  conversion `into_de_error`). -/
  custom : String → DError

/-! ## The consumer bridge `InplaceDeserializer` (`src/de.rs` lines 1525–1533) -/

/-- `de::InplaceDeserializer<D>`: no `Ok`/`Completed` tag exists — a
successful terminal call leaves the taken-out `None` placeholder, because the
decoded value travels through the seed/visitor bridges instead. -/
inductive InplaceDeserializer (C : DeCodec) where
  | None
  | Error (error : C.DError)
  | Deserializer (de : C.D)

namespace InplaceDeserializer

variable {C : DeCodec}

/-- `mem::take(self)` for the consumer bridge. -/
def mem_take (st : InplaceDeserializer C) : InplaceDeserializer C × InplaceDeserializer C :=
  (st, InplaceDeserializer.None)

/-- `InplaceDeserializer::write_error` (`src/de.rs` lines 1536–1539). -/
def write_error (error : C.DError) : InplaceDeserializer C × DeserializerError :=
  (InplaceDeserializer.Error error, DeserializerError.Error)

/-- Common shape of every `dyn_deserialize_*` method (`src/de.rs`
lines 1543–1856): `mem::take`; if the codec was held, forward the call,
mapping a concrete failure through `write_error`; success leaves the `None`
placeholder; a wrong stage drops the taken state and reports `Deserializer`. -/
def take_forward (st : InplaceDeserializer C) (call : C.D → Except C.DError Unit) :
    InplaceDeserializer C × DeserializerResult Unit :=
  match st with
  | InplaceDeserializer.Deserializer de =>
    match call de with
    | .ok _ => (InplaceDeserializer.None, .ok ())
    | .error error =>
      match write_error (C := C) error with
      | (st, status) => (st, .error status)
  | _ => (InplaceDeserializer.None, .error DeserializerError.Deserializer)

/-- `dyn_deserialize_any` (`src/de.rs` lines 1543–1550). -/
def dyn_deserialize_any (st : InplaceDeserializer C) (visitor : C.VisH) :
    InplaceDeserializer C × DeserializerResult Unit :=
  take_forward st (fun de => C.deserialize_any de visitor)

/-- `dyn_deserialize_bool` (`src/de.rs` lines 1552–1559). -/
def dyn_deserialize_bool (st : InplaceDeserializer C) (visitor : C.VisH) :
    InplaceDeserializer C × DeserializerResult Unit :=
  take_forward st (fun de => C.deserialize_bool de visitor)

/-- `dyn_deserialize_i8` (`src/de.rs` lines 1561–1568). -/
def dyn_deserialize_i8 (st : InplaceDeserializer C) (visitor : C.VisH) :
    InplaceDeserializer C × DeserializerResult Unit :=
  take_forward st (fun de => C.deserialize_i8 de visitor)

/-- `dyn_deserialize_i16` (`src/de.rs` lines 1570–1577). -/
def dyn_deserialize_i16 (st : InplaceDeserializer C) (visitor : C.VisH) :
    InplaceDeserializer C × DeserializerResult Unit :=
  take_forward st (fun de => C.deserialize_i16 de visitor)

/-- `dyn_deserialize_i32` (`src/de.rs` lines 1579–1586). -/
def dyn_deserialize_i32 (st : InplaceDeserializer C) (visitor : C.VisH) :
    InplaceDeserializer C × DeserializerResult Unit :=
  take_forward st (fun de => C.deserialize_i32 de visitor)

/-- `dyn_deserialize_i64` (`src/de.rs` lines 1588–1595). -/
def dyn_deserialize_i64 (st : InplaceDeserializer C) (visitor : C.VisH) :
    InplaceDeserializer C × DeserializerResult Unit :=
  take_forward st (fun de => C.deserialize_i64 de visitor)

/-- `dyn_deserialize_128` (`src/de.rs` lines 1597–1604; the source method is
named `dyn_deserialize_128` and forwards to `deserialize_i128`). -/
def dyn_deserialize_128 (st : InplaceDeserializer C) (visitor : C.VisH) :
    InplaceDeserializer C × DeserializerResult Unit :=
  take_forward st (fun de => C.deserialize_i128 de visitor)

/-- `dyn_deserialize_u8` (`src/de.rs` lines 1606–1613). -/
def dyn_deserialize_u8 (st : InplaceDeserializer C) (visitor : C.VisH) :
    InplaceDeserializer C × DeserializerResult Unit :=
  take_forward st (fun de => C.deserialize_u8 de visitor)

/-- `dyn_deserialize_u16` (`src/de.rs` lines 1615–1622). -/
def dyn_deserialize_u16 (st : InplaceDeserializer C) (visitor : C.VisH) :
    InplaceDeserializer C × DeserializerResult Unit :=
  take_forward st (fun de => C.deserialize_u16 de visitor)

/-- `dyn_deserialize_u32` (`src/de.rs` lines 1624–1631). -/
def dyn_deserialize_u32 (st : InplaceDeserializer C) (visitor : C.VisH) :
    InplaceDeserializer C × DeserializerResult Unit :=
  take_forward st (fun de => C.deserialize_u32 de visitor)

/-- `dyn_deserialize_u64` (`src/de.rs` lines 1633–1640). -/
def dyn_deserialize_u64 (st : InplaceDeserializer C) (visitor : C.VisH) :
    InplaceDeserializer C × DeserializerResult Unit :=
  take_forward st (fun de => C.deserialize_u64 de visitor)

/-- `dyn_deserialize_u128` (`src/de.rs` lines 1642–1649). -/
def dyn_deserialize_u128 (st : InplaceDeserializer C) (visitor : C.VisH) :
    InplaceDeserializer C × DeserializerResult Unit :=
  take_forward st (fun de => C.deserialize_u128 de visitor)

/-- `dyn_deserialize_f32` (`src/de.rs` lines 1651–1658). -/
def dyn_deserialize_f32 (st : InplaceDeserializer C) (visitor : C.VisH) :
    InplaceDeserializer C × DeserializerResult Unit :=
  take_forward st (fun de => C.deserialize_f32 de visitor)

/-- `dyn_deserialize_f64` (`src/de.rs` lines 1660–1667). -/
def dyn_deserialize_f64 (st : InplaceDeserializer C) (visitor : C.VisH) :
    InplaceDeserializer C × DeserializerResult Unit :=
  take_forward st (fun de => C.deserialize_f64 de visitor)

/-- `dyn_deserialize_char` (`src/de.rs` lines 1669–1676). -/
def dyn_deserialize_char (st : InplaceDeserializer C) (visitor : C.VisH) :
    InplaceDeserializer C × DeserializerResult Unit :=
  take_forward st (fun de => C.deserialize_char de visitor)

/-- `dyn_deserialize_str` (`src/de.rs` lines 1678–1685). -/
def dyn_deserialize_str (st : InplaceDeserializer C) (visitor : C.VisH) :
    InplaceDeserializer C × DeserializerResult Unit :=
  take_forward st (fun de => C.deserialize_str de visitor)

/-- `dyn_deserialize_string` (`src/de.rs` lines 1687–1694). -/
def dyn_deserialize_string (st : InplaceDeserializer C) (visitor : C.VisH) :
    InplaceDeserializer C × DeserializerResult Unit :=
  take_forward st (fun de => C.deserialize_string de visitor)

/-- `dyn_deserialize_bytes` (`src/de.rs` lines 1696–1703). -/
def dyn_deserialize_bytes (st : InplaceDeserializer C) (visitor : C.VisH) :
    InplaceDeserializer C × DeserializerResult Unit :=
  take_forward st (fun de => C.deserialize_bytes de visitor)

/-- `dyn_deserialize_byte_buf` (`src/de.rs` lines 1705–1715). -/
def dyn_deserialize_byte_buf (st : InplaceDeserializer C) (visitor : C.VisH) :
    InplaceDeserializer C × DeserializerResult Unit :=
  take_forward st (fun de => C.deserialize_byte_buf de visitor)

/-- `dyn_deserialize_option` (`src/de.rs` lines 1717–1724). -/
def dyn_deserialize_option (st : InplaceDeserializer C) (visitor : C.VisH) :
    InplaceDeserializer C × DeserializerResult Unit :=
  take_forward st (fun de => C.deserialize_option de visitor)

/-- `dyn_deserialize_unit` (`src/de.rs` lines 1726–1733). -/
def dyn_deserialize_unit (st : InplaceDeserializer C) (visitor : C.VisH) :
    InplaceDeserializer C × DeserializerResult Unit :=
  take_forward st (fun de => C.deserialize_unit de visitor)

/-- `dyn_deserialize_unit_struct` (`src/de.rs` lines 1735–1746). -/
def dyn_deserialize_unit_struct (st : InplaceDeserializer C)
    (name : String) (visitor : C.VisH) :
    InplaceDeserializer C × DeserializerResult Unit :=
  take_forward st (fun de => C.deserialize_unit_struct de name visitor)

/-- `dyn_deserialize_newtype_struct` (`src/de.rs` lines 1748–1759). -/
def dyn_deserialize_newtype_struct (st : InplaceDeserializer C)
    (name : String) (visitor : C.VisH) :
    InplaceDeserializer C × DeserializerResult Unit :=
  take_forward st (fun de => C.deserialize_newtype_struct de name visitor)

/-- `dyn_deserialize_seq` (`src/de.rs` lines 1761–1768). -/
def dyn_deserialize_seq (st : InplaceDeserializer C) (visitor : C.VisH) :
    InplaceDeserializer C × DeserializerResult Unit :=
  take_forward st (fun de => C.deserialize_seq de visitor)

/-- `dyn_deserialize_tuple` (`src/de.rs` lines 1770–1781). -/
def dyn_deserialize_tuple (st : InplaceDeserializer C) (len : Nat) (visitor : C.VisH) :
    InplaceDeserializer C × DeserializerResult Unit :=
  take_forward st (fun de => C.deserialize_tuple de len visitor)

/-- `dyn_deserialize_tuple_struct` (`src/de.rs` lines 1783–1795). -/
def dyn_deserialize_tuple_struct (st : InplaceDeserializer C)
    (name : String) (len : Nat) (visitor : C.VisH) :
    InplaceDeserializer C × DeserializerResult Unit :=
  take_forward st (fun de => C.deserialize_tuple_struct de name len visitor)

/-- `dyn_deserialize_map` (`src/de.rs` lines 1797–1804). -/
def dyn_deserialize_map (st : InplaceDeserializer C) (visitor : C.VisH) :
    InplaceDeserializer C × DeserializerResult Unit :=
  take_forward st (fun de => C.deserialize_map de visitor)

/-- `dyn_deserialize_struct` (`src/de.rs` lines 1806–1818). -/
def dyn_deserialize_struct (st : InplaceDeserializer C)
    (name : String) (fields : List String) (visitor : C.VisH) :
    InplaceDeserializer C × DeserializerResult Unit :=
  take_forward st (fun de => C.deserialize_struct de name fields visitor)

/-- `dyn_deserialize_enum` (`src/de.rs` lines 1820–1832). -/
def dyn_deserialize_enum (st : InplaceDeserializer C)
    (name : String) (variants : List String) (visitor : C.VisH) :
    InplaceDeserializer C × DeserializerResult Unit :=
  take_forward st (fun de => C.deserialize_enum de name variants visitor)

/-- `dyn_deserialize_identifier` (`src/de.rs` lines 1834–1844). -/
def dyn_deserialize_identifier (st : InplaceDeserializer C) (visitor : C.VisH) :
    InplaceDeserializer C × DeserializerResult Unit :=
  take_forward st (fun de => C.deserialize_identifier de visitor)

/-- `dyn_deserialize_ignored_any` (`src/de.rs` lines 1846–1856). -/
def dyn_deserialize_ignored_any (st : InplaceDeserializer C) (visitor : C.VisH) :
    InplaceDeserializer C × DeserializerResult Unit :=
  take_forward st (fun de => C.deserialize_ignored_any de visitor)

/-- `dyn_is_human_readable` (`src/de.rs` lines 1858–1864); `&self`, pure. -/
def dyn_is_human_readable (st : InplaceDeserializer C) : Bool :=
  match st with
  | InplaceDeserializer.Deserializer de => C.is_human_readable de
  | _ => true

end InplaceDeserializer

/-! ## The seed bridge `InplaceDeserializeSeed` (`src/de.rs` lines 1871–1909) -/

/-- `de::InplaceDeserializeSeed<T>`: `Value` is the Completed tag holding the
decoded value. -/
inductive InplaceDeserializeSeed (C : DeCodec) where
  | None
  | Value (value : C.SeedV)
  | DeserializeSeed (seed : C.SeedT)

namespace InplaceDeserializeSeed

variable {C : DeCodec}

/-- `dyn_deserialize` (`src/de.rs` lines 1898–1908): `mem::take`; on a held
seed, run the concrete `deserialize` and store the decoded value under
`Value`; a concrete failure leaves the `None` placeholder and returns the
error unchanged; a wrong stage returns the `DeserializeSeed` status. -/
def dyn_deserialize (st : InplaceDeserializeSeed C) (deserializer : C.DeH) :
    InplaceDeserializeSeed C × DeserializeResult Unit :=
  match st with
  | InplaceDeserializeSeed.DeserializeSeed seed =>
    match C.seed_deserialize seed deserializer with
    | .ok value => (InplaceDeserializeSeed.Value value, .ok ())
    | .error error => (InplaceDeserializeSeed.None, .error error)
  | _ =>
    (InplaceDeserializeSeed.None,
      .error (DeserializeError.DeserializerError DeserializerError.DeserializeSeed))

/-- `InplaceDeserializeSeed::expect_err` (`src/de.rs` lines 1882–1892): wraps
a propagated status; its `Ok` arm is the `unreachable!` panic, modelled as
`none`. -/
def expect_err {U : Type} (st : InplaceDeserializeSeed C) (result : DeserializerResult U) :
    Option DeserializeError :=
  match st, result with
  | _, .ok _ => none
  | _, .error error => some (DeserializeError.DeserializerError error)

end InplaceDeserializeSeed

/-! ## The visitor bridge `InplaceVisitor` (`src/de.rs` lines 1915–2225) -/

/-- `de::InplaceVisitor<V>`. -/
inductive InplaceVisitor (C : DeCodec) where
  | None
  | Value (value : C.VisV)
  | Visitor (visitor : C.VisT)

namespace InplaceVisitor

variable {C : DeCodec}

/-- Common shape of every `dyn_visit_*` method (`src/de.rs`
lines 1948–2224): `mem::take`; on a held visitor, run the concrete callback
and store the produced value under `Value`; a concrete failure leaves `None`
and returns the error unchanged; a wrong stage returns the `Visitor`
status. -/
def take_visit (st : InplaceVisitor C) (call : C.VisT → Except DeserializeError C.VisV) :
    InplaceVisitor C × DeserializeResult Unit :=
  match st with
  | InplaceVisitor.Visitor visitor =>
    match call visitor with
    | .ok value => (InplaceVisitor.Value value, .ok ())
    | .error error => (InplaceVisitor.None, .error error)
  | _ =>
    (InplaceVisitor.None,
      .error (DeserializeError.DeserializerError DeserializerError.Visitor))

/-- `InplaceVisitor::expect_err` (`src/de.rs` lines 1926–1936). -/
def expect_err (st : InplaceVisitor C) (result : DeserializerResult Unit) :
    Option DeserializeError :=
  match st, result with
  | _, .ok _ => none
  | _, .error error => some (DeserializeError.DeserializerError error)

/-- `dyn_visit_bool` (`src/de.rs` lines 1948–1956). -/
def dyn_visit_bool (st : InplaceVisitor C) (v : Bool) :
    InplaceVisitor C × DeserializeResult Unit :=
  take_visit st (fun visitor => C.visit_bool visitor v)

/-- `dyn_visit_i8` (`src/de.rs` lines 1958–1966). -/
def dyn_visit_i8 (st : InplaceVisitor C) (v : Int) :
    InplaceVisitor C × DeserializeResult Unit :=
  take_visit st (fun visitor => C.visit_i8 visitor v)

/-- `dyn_visit_i16` (`src/de.rs` lines 1968–1976). -/
def dyn_visit_i16 (st : InplaceVisitor C) (v : Int) :
    InplaceVisitor C × DeserializeResult Unit :=
  take_visit st (fun visitor => C.visit_i16 visitor v)

/-- `dyn_visit_i32` (`src/de.rs` lines 1978–1986). -/
def dyn_visit_i32 (st : InplaceVisitor C) (v : Int) :
    InplaceVisitor C × DeserializeResult Unit :=
  take_visit st (fun visitor => C.visit_i32 visitor v)

/-- `dyn_visit_i64` (`src/de.rs` lines 1988–1996). -/
def dyn_visit_i64 (st : InplaceVisitor C) (v : Int) :
    InplaceVisitor C × DeserializeResult Unit :=
  take_visit st (fun visitor => C.visit_i64 visitor v)

/-- `dyn_visit_i128` (`src/de.rs` lines 1998–2006). -/
def dyn_visit_i128 (st : InplaceVisitor C) (v : Int) :
    InplaceVisitor C × DeserializeResult Unit :=
  take_visit st (fun visitor => C.visit_i128 visitor v)

/-- `dyn_visit_u8` (`src/de.rs` lines 2008–2016). -/
def dyn_visit_u8 (st : InplaceVisitor C) (v : Nat) :
    InplaceVisitor C × DeserializeResult Unit :=
  take_visit st (fun visitor => C.visit_u8 visitor v)

/-- `dyn_visit_u16` (`src/de.rs` lines 2018–2026). -/
def dyn_visit_u16 (st : InplaceVisitor C) (v : Nat) :
    InplaceVisitor C × DeserializeResult Unit :=
  take_visit st (fun visitor => C.visit_u16 visitor v)

/-- `dyn_visit_u32` (`src/de.rs` lines 2028–2036). -/
def dyn_visit_u32 (st : InplaceVisitor C) (v : Nat) :
    InplaceVisitor C × DeserializeResult Unit :=
  take_visit st (fun visitor => C.visit_u32 visitor v)

/-- `dyn_visit_u64` (`src/de.rs` lines 2038–2046). -/
def dyn_visit_u64 (st : InplaceVisitor C) (v : Nat) :
    InplaceVisitor C × DeserializeResult Unit :=
  take_visit st (fun visitor => C.visit_u64 visitor v)

/-- `dyn_visit_u128` (`src/de.rs` lines 2048–2056). -/
def dyn_visit_u128 (st : InplaceVisitor C) (v : Nat) :
    InplaceVisitor C × DeserializeResult Unit :=
  take_visit st (fun visitor => C.visit_u128 visitor v)

/-- `dyn_visit_f32` (`src/de.rs` lines 2058–2066). -/
def dyn_visit_f32 (st : InplaceVisitor C) (v : F32) :
    InplaceVisitor C × DeserializeResult Unit :=
  take_visit st (fun visitor => C.visit_f32 visitor v)

/-- `dyn_visit_f64` (`src/de.rs` lines 2068–2076). -/
def dyn_visit_f64 (st : InplaceVisitor C) (v : F64) :
    InplaceVisitor C × DeserializeResult Unit :=
  take_visit st (fun visitor => C.visit_f64 visitor v)

/-- `dyn_visit_char` (`src/de.rs` lines 2078–2086). -/
def dyn_visit_char (st : InplaceVisitor C) (v : Char) :
    InplaceVisitor C × DeserializeResult Unit :=
  take_visit st (fun visitor => C.visit_char visitor v)

/-- `dyn_visit_str` (`src/de.rs` lines 2088–2096). -/
def dyn_visit_str (st : InplaceVisitor C) (v : String) :
    InplaceVisitor C × DeserializeResult Unit :=
  take_visit st (fun visitor => C.visit_str visitor v)

/-- `dyn_visit_borrowed_str` (`src/de.rs` lines 2098–2106). -/
def dyn_visit_borrowed_str (st : InplaceVisitor C) (v : String) :
    InplaceVisitor C × DeserializeResult Unit :=
  take_visit st (fun visitor => C.visit_borrowed_str visitor v)

/-- `dyn_visit_string` (`src/de.rs` lines 2108–2117). -/
def dyn_visit_string (st : InplaceVisitor C) (v : String) :
    InplaceVisitor C × DeserializeResult Unit :=
  take_visit st (fun visitor => C.visit_string visitor v)

/-- `dyn_visit_bytes` (`src/de.rs` lines 2119–2127). -/
def dyn_visit_bytes (st : InplaceVisitor C) (v : List Nat) :
    InplaceVisitor C × DeserializeResult Unit :=
  take_visit st (fun visitor => C.visit_bytes visitor v)

/-- `dyn_visit_borrowed_bytes` (`src/de.rs` lines 2129–2137). -/
def dyn_visit_borrowed_bytes (st : InplaceVisitor C) (v : List Nat) :
    InplaceVisitor C × DeserializeResult Unit :=
  take_visit st (fun visitor => C.visit_borrowed_bytes visitor v)

/-- `dyn_visit_byte_buf` (`src/de.rs` lines 2139–2148). -/
def dyn_visit_byte_buf (st : InplaceVisitor C) (v : List Nat) :
    InplaceVisitor C × DeserializeResult Unit :=
  take_visit st (fun visitor => C.visit_byte_buf visitor v)

/-- `dyn_visit_none` (`src/de.rs` lines 2150–2158). -/
def dyn_visit_none (st : InplaceVisitor C) :
    InplaceVisitor C × DeserializeResult Unit :=
  take_visit st (fun visitor => C.visit_none visitor)

/-- `dyn_visit_some` (`src/de.rs` lines 2160–2171). -/
def dyn_visit_some (st : InplaceVisitor C) (deserializer : C.DeH) :
    InplaceVisitor C × DeserializeResult Unit :=
  take_visit st (fun visitor => C.visit_some visitor deserializer)

/-- `dyn_visit_unit` (`src/de.rs` lines 2173–2181). -/
def dyn_visit_unit (st : InplaceVisitor C) :
    InplaceVisitor C × DeserializeResult Unit :=
  take_visit st (fun visitor => C.visit_unit visitor)

/-- `dyn_visit_newtype_struct` (`src/de.rs` lines 2183–2194). -/
def dyn_visit_newtype_struct (st : InplaceVisitor C) (deserializer : C.DeH) :
    InplaceVisitor C × DeserializeResult Unit :=
  take_visit st (fun visitor => C.visit_newtype_struct visitor deserializer)

/-- `dyn_visit_seq` (`src/de.rs` lines 2196–2204). -/
def dyn_visit_seq (st : InplaceVisitor C) (seq : C.SeqAccessH) :
    InplaceVisitor C × DeserializeResult Unit :=
  take_visit st (fun visitor => C.visit_seq visitor seq)

/-- `dyn_visit_map` (`src/de.rs` lines 2206–2214). -/
def dyn_visit_map (st : InplaceVisitor C) (map : C.MapAccessH) :
    InplaceVisitor C × DeserializeResult Unit :=
  take_visit st (fun visitor => C.visit_map visitor map)

/-- `dyn_visit_enum` (`src/de.rs` lines 2216–2224). -/
def dyn_visit_enum (st : InplaceVisitor C) (data : C.EnumAccessH) :
    InplaceVisitor C × DeserializeResult Unit :=
  take_visit st (fun visitor => C.visit_enum visitor data)

end InplaceVisitor

/-! ## The access bridges (`src/de.rs` lines 2231–2432) -/

/-- `de::InplaceSeqAccess<A>` (`src/de.rs` lines 2231–2236): only two tags —
the concrete access object may be a borrow, so there is no `None`
placeholder and the tag is always checked by reference. -/
inductive InplaceSeqAccess (C : DeCodec) where
  | Error (error : C.SeqAErr)
  | SeqAccess (access : C.SeqA)

namespace InplaceSeqAccess

variable {C : DeCodec}

/-- `dyn_next_element` (`src/de.rs` lines 2246–2257): reference check; on
success the access object is mutated in place (tag kept); failure moves to
`Error` via `write_error`. -/
def dyn_next_element (st : InplaceSeqAccess C) (seed : C.SeedH) :
    InplaceSeqAccess C × DeserializerResult (Option Unit) :=
  match st with
  | InplaceSeqAccess.SeqAccess access =>
    match C.seq_next_element_seed access seed with
    | .ok (access, out) => (InplaceSeqAccess.SeqAccess access, .ok out)
    | .error error => (InplaceSeqAccess.Error error, .error DeserializerError.Error)
  | _ => (st, .error DeserializerError.SeqAccess)

/-- `dyn_size_hint` (`src/de.rs` lines 2259–2264); `&self`, pure. -/
def dyn_size_hint (st : InplaceSeqAccess C) : Option Nat :=
  match st with
  | InplaceSeqAccess.Error _ => none
  | InplaceSeqAccess.SeqAccess access => C.seq_size_hint access

end InplaceSeqAccess

/-- `de::InplaceMapAccess<A>` (`src/de.rs` lines 2271–2276). -/
inductive InplaceMapAccess (C : DeCodec) where
  | Error (error : C.MapAErr)
  | MapAccess (access : C.MapA)

namespace InplaceMapAccess

variable {C : DeCodec}

/-- `dyn_next_key` (`src/de.rs` lines 2286–2297). -/
def dyn_next_key (st : InplaceMapAccess C) (seed : C.SeedH) :
    InplaceMapAccess C × DeserializerResult (Option Unit) :=
  match st with
  | InplaceMapAccess.MapAccess access =>
    match C.map_next_key_seed access seed with
    | .ok (access, out) => (InplaceMapAccess.MapAccess access, .ok out)
    | .error error => (InplaceMapAccess.Error error, .error DeserializerError.Error)
  | _ => (st, .error DeserializerError.MapAccess)

/-- `dyn_next_value` (`src/de.rs` lines 2299–2307). -/
def dyn_next_value (st : InplaceMapAccess C) (seed : C.SeedH) :
    InplaceMapAccess C × DeserializerResult Unit :=
  match st with
  | InplaceMapAccess.MapAccess access =>
    match C.map_next_value_seed access seed with
    | .ok access => (InplaceMapAccess.MapAccess access, .ok ())
    | .error error => (InplaceMapAccess.Error error, .error DeserializerError.Error)
  | _ => (st, .error DeserializerError.MapAccess)

/-- `dyn_next_entry` (`src/de.rs` lines 2309–2321). -/
def dyn_next_entry (st : InplaceMapAccess C) (kseed vseed : C.SeedH) :
    InplaceMapAccess C × DeserializerResult (Option Unit) :=
  match st with
  | InplaceMapAccess.MapAccess access =>
    match C.map_next_entry_seed access kseed vseed with
    | .ok (access, out) => (InplaceMapAccess.MapAccess access, .ok out)
    | .error error => (InplaceMapAccess.Error error, .error DeserializerError.Error)
  | _ => (st, .error DeserializerError.MapAccess)

/-- `dyn_size_hint` (`src/de.rs` lines 2323–2328); `&self`, pure. -/
def dyn_size_hint (st : InplaceMapAccess C) : Option Nat :=
  match st with
  | InplaceMapAccess.Error _ => none
  | InplaceMapAccess.MapAccess access => C.map_size_hint access

end InplaceMapAccess

/-- `de::InplaceEnumAccess<A>` (`src/de.rs` lines 2335–2345): the only
consumer bridge with a composite-open tag (`VariantAccess`). -/
inductive InplaceEnumAccess (C : DeCodec) where
  | None
  | Error (error : C.EnumAErr)
  | EnumAccess (access : C.EnumA)
  | VariantAccess (variant : C.EnumVar)

namespace InplaceEnumAccess

variable {C : DeCodec}

/-- `mem::take(self)` for the enum access bridge. -/
def mem_take (st : InplaceEnumAccess C) : InplaceEnumAccess C × InplaceEnumAccess C :=
  (st, InplaceEnumAccess.None)

/-- `dyn_variant_seed` (`src/de.rs` lines 2355–2370): `mem::take`; a held
access identifies the variant and the bridge moves to `VariantAccess`;
failure stores the error; a wrong stage reports `EnumAccess`. -/
def dyn_variant_seed (st : InplaceEnumAccess C) (seed : C.SeedH) :
    InplaceEnumAccess C × DeserializerResult Unit :=
  match st with
  | InplaceEnumAccess.EnumAccess access =>
    match C.enum_variant_seed access seed with
    | .ok variant => (InplaceEnumAccess.VariantAccess variant, .ok ())
    | .error error => (InplaceEnumAccess.Error error, .error DeserializerError.Error)
  | _ => (InplaceEnumAccess.None, .error DeserializerError.EnumAccess)

/-- `dyn_unit_variant` (`src/de.rs` lines 2374–2384): `mem::take`; on success
the taken variant access is consumed and the bridge stays `None`. -/
def dyn_unit_variant (st : InplaceEnumAccess C) :
    InplaceEnumAccess C × DeserializerResult Unit :=
  match st with
  | InplaceEnumAccess.VariantAccess access =>
    match C.variant_unit_variant access with
    | .ok _ => (InplaceEnumAccess.None, .ok ())
    | .error error => (InplaceEnumAccess.Error error, .error DeserializerError.Error)
  | _ => (InplaceEnumAccess.None, .error DeserializerError.VariantAccess)

/-- `dyn_newtype_variant` (`src/de.rs` lines 2386–2399). -/
def dyn_newtype_variant (st : InplaceEnumAccess C) (seed : C.SeedH) :
    InplaceEnumAccess C × DeserializerResult Unit :=
  match st with
  | InplaceEnumAccess.VariantAccess access =>
    match C.variant_newtype_variant_seed access seed with
    | .ok _ => (InplaceEnumAccess.None, .ok ())
    | .error error => (InplaceEnumAccess.Error error, .error DeserializerError.Error)
  | _ => (InplaceEnumAccess.None, .error DeserializerError.VariantAccess)

/-- `dyn_tuple_variant` (`src/de.rs` lines 2401–2415). -/
def dyn_tuple_variant (st : InplaceEnumAccess C) (len : Nat) (visitor : C.VisH) :
    InplaceEnumAccess C × DeserializerResult Unit :=
  match st with
  | InplaceEnumAccess.VariantAccess access =>
    match C.variant_tuple_variant access len visitor with
    | .ok _ => (InplaceEnumAccess.None, .ok ())
    | .error error => (InplaceEnumAccess.Error error, .error DeserializerError.Error)
  | _ => (InplaceEnumAccess.None, .error DeserializerError.VariantAccess)

/-- `dyn_struct_variant` (`src/de.rs` lines 2417–2431). -/
def dyn_struct_variant (st : InplaceEnumAccess C) (fields : List String) (visitor : C.VisH) :
    InplaceEnumAccess C × DeserializerResult Unit :=
  match st with
  | InplaceEnumAccess.VariantAccess access =>
    match C.variant_struct_variant access fields visitor with
    | .ok _ => (InplaceEnumAccess.None, .ok ())
    | .error error => (InplaceEnumAccess.Error error, .error DeserializerError.Error)
  | _ => (InplaceEnumAccess.None, .error DeserializerError.VariantAccess)

end InplaceEnumAccess

/-! ## Consumer operation labels -/

/-- The `Result`-returning operations of the `Deserializer` facade. -/
inductive DeOp (C : DeCodec) where
  | deserialize_any (visitor : C.VisH)
  | deserialize_bool (visitor : C.VisH)
  | deserialize_i8 (visitor : C.VisH)
  | deserialize_i16 (visitor : C.VisH)
  | deserialize_i32 (visitor : C.VisH)
  | deserialize_i64 (visitor : C.VisH)
  | deserialize_128 (visitor : C.VisH)
  | deserialize_u8 (visitor : C.VisH)
  | deserialize_u16 (visitor : C.VisH)
  | deserialize_u32 (visitor : C.VisH)
  | deserialize_u64 (visitor : C.VisH)
  | deserialize_u128 (visitor : C.VisH)
  | deserialize_f32 (visitor : C.VisH)
  | deserialize_f64 (visitor : C.VisH)
  | deserialize_char (visitor : C.VisH)
  | deserialize_str (visitor : C.VisH)
  | deserialize_string (visitor : C.VisH)
  | deserialize_bytes (visitor : C.VisH)
  | deserialize_byte_buf (visitor : C.VisH)
  | deserialize_option (visitor : C.VisH)
  | deserialize_unit (visitor : C.VisH)
  | deserialize_unit_struct (name : String) (visitor : C.VisH)
  | deserialize_newtype_struct (name : String) (visitor : C.VisH)
  | deserialize_seq (visitor : C.VisH)
  | deserialize_tuple (len : Nat) (visitor : C.VisH)
  | deserialize_tuple_struct (name : String) (len : Nat) (visitor : C.VisH)
  | deserialize_map (visitor : C.VisH)
  | deserialize_struct (name : String) (fields : List String) (visitor : C.VisH)
  | deserialize_enum (name : String) (variants : List String) (visitor : C.VisH)
  | deserialize_identifier (visitor : C.VisH)
  | deserialize_ignored_any (visitor : C.VisH)

namespace DeOp

variable {C : DeCodec}

open InplaceDeserializer in
/-- Dispatch a `Deserializer` facade operation to its bridge function. -/
def apply (op : DeOp C) (st : InplaceDeserializer C) :
    InplaceDeserializer C × DeserializerResult Unit :=
  match op with
  | .deserialize_any visitor => dyn_deserialize_any st visitor
  | .deserialize_bool visitor => dyn_deserialize_bool st visitor
  | .deserialize_i8 visitor => dyn_deserialize_i8 st visitor
  | .deserialize_i16 visitor => dyn_deserialize_i16 st visitor
  | .deserialize_i32 visitor => dyn_deserialize_i32 st visitor
  | .deserialize_i64 visitor => dyn_deserialize_i64 st visitor
  | .deserialize_128 visitor => dyn_deserialize_128 st visitor
  | .deserialize_u8 visitor => dyn_deserialize_u8 st visitor
  | .deserialize_u16 visitor => dyn_deserialize_u16 st visitor
  | .deserialize_u32 visitor => dyn_deserialize_u32 st visitor
  | .deserialize_u64 visitor => dyn_deserialize_u64 st visitor
  | .deserialize_u128 visitor => dyn_deserialize_u128 st visitor
  | .deserialize_f32 visitor => dyn_deserialize_f32 st visitor
  | .deserialize_f64 visitor => dyn_deserialize_f64 st visitor
  | .deserialize_char visitor => dyn_deserialize_char st visitor
  | .deserialize_str visitor => dyn_deserialize_str st visitor
  | .deserialize_string visitor => dyn_deserialize_string st visitor
  | .deserialize_bytes visitor => dyn_deserialize_bytes st visitor
  | .deserialize_byte_buf visitor => dyn_deserialize_byte_buf st visitor
  | .deserialize_option visitor => dyn_deserialize_option st visitor
  | .deserialize_unit visitor => dyn_deserialize_unit st visitor
  | .deserialize_unit_struct name visitor => dyn_deserialize_unit_struct st name visitor
  | .deserialize_newtype_struct name visitor => dyn_deserialize_newtype_struct st name visitor
  | .deserialize_seq visitor => dyn_deserialize_seq st visitor
  | .deserialize_tuple len visitor => dyn_deserialize_tuple st len visitor
  | .deserialize_tuple_struct name len visitor =>
    dyn_deserialize_tuple_struct st name len visitor
  | .deserialize_map visitor => dyn_deserialize_map st visitor
  | .deserialize_struct name fields visitor => dyn_deserialize_struct st name fields visitor
  | .deserialize_enum name variants visitor => dyn_deserialize_enum st name variants visitor
  | .deserialize_identifier visitor => dyn_deserialize_identifier st visitor
  | .deserialize_ignored_any visitor => dyn_deserialize_ignored_any st visitor

end DeOp

/-- The `Result`-returning operations of the `Visitor` facade. -/
inductive VisOp (C : DeCodec) where
  | visit_bool (v : Bool)
  | visit_i8 (v : Int)
  | visit_i16 (v : Int)
  | visit_i32 (v : Int)
  | visit_i64 (v : Int)
  | visit_i128 (v : Int)
  | visit_u8 (v : Nat)
  | visit_u16 (v : Nat)
  | visit_u32 (v : Nat)
  | visit_u64 (v : Nat)
  | visit_u128 (v : Nat)
  | visit_f32 (v : F32)
  | visit_f64 (v : F64)
  | visit_char (v : Char)
  | visit_str (v : String)
  | visit_borrowed_str (v : String)
  | visit_string (v : String)
  | visit_bytes (v : List Nat)
  | visit_borrowed_bytes (v : List Nat)
  | visit_byte_buf (v : List Nat)
  | visit_none
  | visit_some (deserializer : C.DeH)
  | visit_unit
  | visit_newtype_struct (deserializer : C.DeH)
  | visit_seq (seq : C.SeqAccessH)
  | visit_map (map : C.MapAccessH)
  | visit_enum (data : C.EnumAccessH)

namespace VisOp

variable {C : DeCodec}

open InplaceVisitor in
/-- Dispatch a `Visitor` facade operation to its bridge function. -/
def apply (op : VisOp C) (st : InplaceVisitor C) :
    InplaceVisitor C × DeserializeResult Unit :=
  match op with
  | .visit_bool v => dyn_visit_bool st v
  | .visit_i8 v => dyn_visit_i8 st v
  | .visit_i16 v => dyn_visit_i16 st v
  | .visit_i32 v => dyn_visit_i32 st v
  | .visit_i64 v => dyn_visit_i64 st v
  | .visit_i128 v => dyn_visit_i128 st v
  | .visit_u8 v => dyn_visit_u8 st v
  | .visit_u16 v => dyn_visit_u16 st v
  | .visit_u32 v => dyn_visit_u32 st v
  | .visit_u64 v => dyn_visit_u64 st v
  | .visit_u128 v => dyn_visit_u128 st v
  | .visit_f32 v => dyn_visit_f32 st v
  | .visit_f64 v => dyn_visit_f64 st v
  | .visit_char v => dyn_visit_char st v
  | .visit_str v => dyn_visit_str st v
  | .visit_borrowed_str v => dyn_visit_borrowed_str st v
  | .visit_string v => dyn_visit_string st v
  | .visit_bytes v => dyn_visit_bytes st v
  | .visit_borrowed_bytes v => dyn_visit_borrowed_bytes st v
  | .visit_byte_buf v => dyn_visit_byte_buf st v
  | .visit_none => dyn_visit_none st
  | .visit_some deserializer => dyn_visit_some st deserializer
  | .visit_unit => dyn_visit_unit st
  | .visit_newtype_struct deserializer => dyn_visit_newtype_struct st deserializer
  | .visit_seq seq => dyn_visit_seq st seq
  | .visit_map map => dyn_visit_map st map
  | .visit_enum data => dyn_visit_enum st data

end VisOp

/-- The operations of the `SeqAccess`/`MapAccess` facades that return a
`Result` (over a shared label type, tagged by which bridge they address). -/
inductive MapOp (C : DeCodec) where
  | next_key (seed : C.SeedH)
  | next_value (seed : C.SeedH)
  | next_entry (kseed vseed : C.SeedH)

namespace MapOp

variable {C : DeCodec}

open InplaceMapAccess in
/-- Dispatch a `MapAccess` facade operation; `next_value` has result type
`Unit`, the other two `Option Unit`, so the result is coerced to the common
shape `DeserializerResult (Option Unit)` by wrapping the `next_value` success
as `some ()` (only the error component is compared in the theorems below, and
it is untouched). -/
def apply (op : MapOp C) (st : InplaceMapAccess C) :
    InplaceMapAccess C × DeserializerResult (Option Unit) :=
  match op with
  | .next_key seed => dyn_next_key st seed
  | .next_value seed =>
    match dyn_next_value st seed with
    | (st, .ok ()) => (st, .ok (some ()))
    | (st, .error error) => (st, .error error)
  | .next_entry kseed vseed => dyn_next_entry st kseed vseed

end MapOp

/-- The operations of the `EnumAccess`/`VariantAccess` facades, all served by
the `InplaceEnumAccess` bridge. -/
inductive EnumOp (C : DeCodec) where
  | variant_seed (seed : C.SeedH)
  | unit_variant
  | newtype_variant (seed : C.SeedH)
  | tuple_variant (len : Nat) (visitor : C.VisH)
  | struct_variant (fields : List String) (visitor : C.VisH)

namespace EnumOp

variable {C : DeCodec}

open InplaceEnumAccess in
/-- Dispatch an `EnumAccess`/`VariantAccess` facade operation. -/
def apply (op : EnumOp C) (st : InplaceEnumAccess C) :
    InplaceEnumAccess C × DeserializerResult Unit :=
  match op with
  | .variant_seed seed => dyn_variant_seed st seed
  | .unit_variant => dyn_unit_variant st
  | .newtype_variant seed => dyn_newtype_variant st seed
  | .tuple_variant len visitor => dyn_tuple_variant st len visitor
  | .struct_variant fields visitor => dyn_struct_variant st fields visitor

/-- The facade kind of the operation: which wrong-stage status its `else`
branch returns. -/
def facadeKind : EnumOp C → DeserializerError
  | .variant_seed _ => DeserializerError.EnumAccess
  | _ => DeserializerError.VariantAccess

end EnumOp

/-! ## The dynamic-to-generic boundary glue

These functions model the `impl serde::… for &mut dyn …` adapters that create
a fresh bridge, run the type-erased call against it (abstracted as a driver
function on the bridge state), and then reconcile the bridge's final tag with
the call's returned status.  The `unreachable!` panics of the source become
the explicit `panicked` outcome. -/

/-- The display text of a `SerializerError` (`src/ser.rs` lines 975–999). -/
def SerializerError.display : SerializerError → String
  | .Error => "an error occurred during the serialization"
  | .Serializer => "the serializer is not ready"
  | .SerializeSeq => "the serializer is not ready to serialize the sequence"
  | .SerializeTuple => "the serializer is not ready to serialize the tuple"
  | .SerializeTupleStruct => "the serializer is not ready to serialize the tuple struct"
  | .SerializeTupleVariant => "the serializer is not ready to serialize the tuple variant"
  | .SerializeMap => "the serializer is not ready to serialize the map"
  | .SerializeStruct => "the serializer is not ready to serialize the struct"
  | .SerializeStructVariant => "the serializer is not ready to serialize the struct variant"

/-- The display text of a `DeserializerError` (`src/de.rs` lines 1504–1517). -/
def DeserializerError.display : DeserializerError → String
  | .Error => "an error occurred during the deserialization"
  | .Deserializer => "the deserializer is not ready"
  | .DeserializeSeed => "the deserialize-seed is not ready"
  | .Visitor => "the visitor is not ready"
  | .SeqAccess => "the sequence access is not ready"
  | .MapAccess => "the map access is not ready"
  | .EnumAccess => "the enum access is not ready"
  | .VariantAccess => "the enum variant access is not ready"

/-- `SerializeError::into_ser_error` (`src/ser.rs` lines 1017–1031): split via
`into_string` and feed either branch to the target's `custom` constructor. -/
def SerializeErrorRepr.into_ser_error (C : SerCodec) (e : SerializeErrorRepr) : C.Error :=
  match e.into_string with
  | .error error => C.custom error.display
  | .ok msg => C.custom msg

/-- `DeserializeError::into_de_error` (`src/de.rs` lines 1409–1419). -/
def DeserializeError.into_de_error (C : DeCodec) : DeserializeError → C.DError
  | .DeserializerError error => C.custom error.display
  | .Other msg => C.custom msg

/-- Outcome of `serde::Serialize::serialize` on a `dyn Serialize`: the
concrete codec's result, or the `unreachable!` panic. -/
inductive SerializeOutcome (C : SerCodec) where
  | ok (ok : C.Ok)
  | err (error : C.Error)
  | panicked

/-- `impl serde::Serialize for dyn Serialize` (`src/ser.rs` lines 71–87).
The value's type-erased `dyn_serialize` is abstracted as a driver `f` on the
bridge state.  The bridge's final tag takes precedence: a stored concrete
`Ok`/`Error` is returned directly; otherwise the returned status is
converted via `into_ser_error` — and a returned `Ok` without a stored `Ok`
is the `unreachable!` panic. -/
def dynSerialize_serialize (C : SerCodec)
    (f : InplaceSerializer C → InplaceSerializer C × SerializeResult Unit)
    (s : C.S) : SerializeOutcome C :=
  match f (InplaceSerializer.Serializer s) with
  | (InplaceSerializer.Ok ok, _) => SerializeOutcome.ok ok
  | (InplaceSerializer.Error error, _) => SerializeOutcome.err error
  | (_, .ok _) => SerializeOutcome.panicked
  | (_, .error error) => SerializeOutcome.err (error.into_ser_error C)

/-- `impl serde::de::DeserializeSeed for &mut dyn DeserializeSeed`
(`src/de.rs` lines 699–713): a stored concrete error takes precedence,
otherwise the result is converted via `into_de_error`.  (`Value = ()`.) -/
def dynDeserializeSeed_deserialize (C : DeCodec)
    (f : InplaceDeserializer C → InplaceDeserializer C × DeserializeResult Unit)
    (d : C.D) : Except C.DError Unit :=
  match f (InplaceDeserializer.Deserializer d) with
  | (InplaceDeserializer.Error error, _) => .error error
  | (_, .ok _) => .ok ()
  | (_, .error error) => .error (error.into_de_error C)

/-- `visit_some` of `impl serde::de::Visitor for &mut dyn Visitor`
(`src/de.rs` lines 1053–1064): same reconciliation as the seed glue, driven
through `dyn_visit_some`. -/
def dynVisitor_visit_some (C : DeCodec)
    (f : InplaceDeserializer C → InplaceDeserializer C × DeserializeResult Unit)
    (d : C.D) : Except C.DError Unit :=
  match f (InplaceDeserializer.Deserializer d) with
  | (InplaceDeserializer.Error error, _) => .error error
  | (_, .ok _) => .ok ()
  | (_, .error error) => .error (error.into_de_error C)

/-- Outcome of `variant_seed` in `impl serde::de::EnumAccess for &mut dyn
EnumAccess` (the decoded variant-identifying value, an error, or the
`unreachable!` panic; the variant handle of the source's pair is the bridge
itself and is not modelled separately). -/
inductive VariantSeedOutcome (C : DeCodec) where
  | ok (value : C.SeedV)
  | err (error : DeserializeError)
  | panicked

/-- `variant_seed` (`src/de.rs` lines 1289–1303): wrap the concrete seed in a
fresh seed bridge, run the type-erased `dyn_variant_seed` (the driver `f`),
and on an `Ok` result read the decoded value out of the seed bridge — the
non-`Value` case is `unreachable!`. -/
def dynEnumAccess_variant_seed (C : DeCodec)
    (f : InplaceDeserializeSeed C → InplaceDeserializeSeed C × DeserializerResult Unit)
    (seed : C.SeedT) : VariantSeedOutcome C :=
  match f (InplaceDeserializeSeed.DeserializeSeed seed) with
  | (st, .ok _) =>
    match st with
    | InplaceDeserializeSeed.Value value => VariantSeedOutcome.ok value
    | _ => VariantSeedOutcome.panicked
  | (_, .error error) =>
    VariantSeedOutcome.err (DeserializeError.DeserializerError error)

/-- Outcome of `next_element_seed` in `impl serde::de::SeqAccess for &mut dyn
SeqAccess`. -/
inductive NextElementOutcome (C : DeCodec) where
  | ok (value : Option C.SeedV)
  | err (error : DeserializeError)
  | panicked

/-- `next_element_seed` (`src/de.rs` lines 1150–1164): wrap the concrete seed
in a fresh seed bridge, run `dyn_next_element` (the driver `f`); a stored
`Value` yields `Ok(Some _)`, a returned `Ok(None)` yields `Ok(None)`, and
everything else goes through `expect_err`, whose `Ok` arm is
`unreachable!`. -/
def dynSeqAccess_next_element_seed (C : DeCodec)
    (f : InplaceDeserializeSeed C → InplaceDeserializeSeed C × DeserializerResult (Option Unit))
    (seed : C.SeedT) : NextElementOutcome C :=
  match f (InplaceDeserializeSeed.DeserializeSeed seed) with
  | (InplaceDeserializeSeed.Value value, _) => NextElementOutcome.ok (some value)
  | (st, result) =>
    match result with
    | .ok none => NextElementOutcome.ok none
    | _ =>
      match st.expect_err result with
      | some error => NextElementOutcome.err error
      | none => NextElementOutcome.panicked

/-! ## Tags, spec-side outcome descriptions, demo codecs -/

/-- The tag (discriminant) of a producer bridge state. -/
inductive SerTag where
  | None
  | Ok
  | Error
  | Serializer
  | SerializeSeq
  | SerializeTuple
  | SerializeTupleStruct
  | SerializeTupleVariant
  | SerializeMap
  | SerializeStruct
  | SerializeStructVariant
deriving DecidableEq, Repr

/-- Tag projection for `InplaceSerializer`. -/
def InplaceSerializer.tag {C : SerCodec} : InplaceSerializer C → SerTag
  | .None => SerTag.None
  | .Ok _ => SerTag.Ok
  | .Error _ => SerTag.Error
  | .Serializer _ => SerTag.Serializer
  | .SerializeSeq _ => SerTag.SerializeSeq
  | .SerializeTuple _ => SerTag.SerializeTuple
  | .SerializeTupleStruct _ => SerTag.SerializeTupleStruct
  | .SerializeTupleVariant _ => SerTag.SerializeTupleVariant
  | .SerializeMap _ => SerTag.SerializeMap
  | .SerializeStruct _ => SerTag.SerializeStruct
  | .SerializeStructVariant _ => SerTag.SerializeStructVariant

/-- The tag of a consumer sequence-access bridge state. -/
inductive AccessTag where
  | Error
  | Access
deriving DecidableEq, Repr

/-- Tag projection for `InplaceSeqAccess`. -/
def InplaceSeqAccess.tag {C : DeCodec} : InplaceSeqAccess C → AccessTag
  | .Error _ => AccessTag.Error
  | .SeqAccess _ => AccessTag.Access

/-- Tag projection for `InplaceMapAccess`. -/
def InplaceMapAccess.tag {C : DeCodec} : InplaceMapAccess C → AccessTag
  | .Error _ => AccessTag.Error
  | .MapAccess _ => AccessTag.Access

/-- Modelled from the spec (§4.3): the outcome a terminal producer call must
store — the concrete result under the `Completed`/`Ok` tag on success, the
concrete error under `Failed`/`Error` with the generic-error status on
failure. -/
def specCompleted (C : SerCodec) (r : Except C.Error C.Ok) :
    InplaceSerializer C × SerializerResult Unit :=
  match r with
  | .ok ok => (InplaceSerializer.Ok ok, .ok ())
  | .error error => (InplaceSerializer.Error error, .error SerializerError.Error)

/-- Modelled from the spec (§4.3): the outcome a composite-opening producer
call must store — the sub-serializer under the corresponding `CompositeOpen`
tag on success, the concrete error under `Failed`/`Error` with the
generic-error status on failure. -/
def specCompositeOpen (C : SerCodec) {T : Type} (f : T → InplaceSerializer C)
    (r : Except C.Error T) : InplaceSerializer C × SerializerResult Unit :=
  match r with
  | .ok sub => (f sub, .ok ())
  | .error error => (InplaceSerializer.Error error, .error SerializerError.Error)

namespace SerOp

variable {C : SerCodec}

/-- Whether the operation belongs to the `Serializer` trait itself (requires
the `CodecReady`/`Serializer` tag), as opposed to a composite sub-facade. -/
def isRootOp : SerOp C → Bool
  | .seq_element _ | .seq_end | .tuple_element _ | .tuple_end
  | .tuple_struct_field _ | .tuple_struct_end
  | .tuple_variant_field _ | .tuple_variant_end
  | .map_key _ | .map_value _ | .map_entry _ _ | .map_end
  | .struct_field _ _ | .struct_skip_field _ | .struct_end
  | .struct_variant_field _ _ | .struct_variant_skip_field _
  | .struct_variant_end => false
  | _ => true

/-- Modelled from the spec (§4.3): what a `Serializer`-level call started in
the `CodecReady` tag must produce, per operation — the matching concrete
operation invoked once, its result stored under `Completed` (terminals) or
the corresponding `CompositeOpen` tag (the seven opens).  Sub-facade labels
are given a dummy value; they are excluded by the `isRootOp` hypothesis. -/
def specRootOutcome (op : SerOp C) (s : C.S) :
    InplaceSerializer C × SerializerResult Unit :=
  match op with
  | .serialize_bool v => specCompleted C (C.serialize_bool s v)
  | .serialize_i8 v => specCompleted C (C.serialize_i8 s v)
  | .serialize_i16 v => specCompleted C (C.serialize_i16 s v)
  | .serialize_i32 v => specCompleted C (C.serialize_i32 s v)
  | .serialize_i64 v => specCompleted C (C.serialize_i64 s v)
  | .serialize_i128 v => specCompleted C (C.serialize_i128 s v)
  | .serialize_u8 v => specCompleted C (C.serialize_u8 s v)
  | .serialize_u16 v => specCompleted C (C.serialize_u16 s v)
  | .serialize_u32 v => specCompleted C (C.serialize_u32 s v)
  | .serialize_u64 v => specCompleted C (C.serialize_u64 s v)
  | .serialize_u128 v => specCompleted C (C.serialize_u128 s v)
  | .serialize_f32 v => specCompleted C (C.serialize_f32 s v)
  | .serialize_f64 v => specCompleted C (C.serialize_f64 s v)
  | .serialize_char v => specCompleted C (C.serialize_char s v)
  | .serialize_str v => specCompleted C (C.serialize_str s v)
  | .serialize_bytes v => specCompleted C (C.serialize_bytes s v)
  | .serialize_none => specCompleted C (C.serialize_none s)
  | .serialize_some value => specCompleted C (C.serialize_some s value)
  | .serialize_unit => specCompleted C (C.serialize_unit s)
  | .serialize_unit_struct name => specCompleted C (C.serialize_unit_struct s name)
  | .serialize_unit_variant name vi v =>
    specCompleted C (C.serialize_unit_variant s name vi v)
  | .serialize_newtype_struct name value =>
    specCompleted C (C.serialize_newtype_struct s name value)
  | .serialize_newtype_variant name vi v value =>
    specCompleted C (C.serialize_newtype_variant s name vi v value)
  | .collect_str value => specCompleted C (C.collect_str s value)
  | .serialize_seq len =>
    specCompositeOpen C InplaceSerializer.SerializeSeq (C.serialize_seq s len)
  | .serialize_tuple len =>
    specCompositeOpen C InplaceSerializer.SerializeTuple (C.serialize_tuple s len)
  | .serialize_tuple_struct name len =>
    specCompositeOpen C InplaceSerializer.SerializeTupleStruct
      (C.serialize_tuple_struct s name len)
  | .serialize_tuple_variant name vi v len =>
    specCompositeOpen C InplaceSerializer.SerializeTupleVariant
      (C.serialize_tuple_variant s name vi v len)
  | .serialize_map len =>
    specCompositeOpen C InplaceSerializer.SerializeMap (C.serialize_map s len)
  | .serialize_struct name len =>
    specCompositeOpen C InplaceSerializer.SerializeStruct (C.serialize_struct s name len)
  | .serialize_struct_variant name vi v len =>
    specCompositeOpen C InplaceSerializer.SerializeStructVariant
      (C.serialize_struct_variant s name vi v len)
  | _ => (InplaceSerializer.None, .error SerializerError.Error)

end SerOp

/-- A concrete executable producer codec over `Nat` states: every concrete
operation succeeds and keeps its state, `is_human_readable` answers `false`
(distinguishable from the bridge's `true` default). -/
def demoSer : SerCodec where
  S := Nat
  Ok := Nat
  Error := Nat
  SeqS := Nat
  TupleS := Nat
  TupleStructS := Nat
  TupleVariantS := Nat
  MapS := Nat
  StructS := Nat
  StructVariantS := Nat
  Val := Nat
  Disp := Nat
  serialize_bool := fun s _ => .ok s
  serialize_i8 := fun s _ => .ok s
  serialize_i16 := fun s _ => .ok s
  serialize_i32 := fun s _ => .ok s
  serialize_i64 := fun s _ => .ok s
  serialize_i128 := fun s _ => .ok s
  serialize_u8 := fun s _ => .ok s
  serialize_u16 := fun s _ => .ok s
  serialize_u32 := fun s _ => .ok s
  serialize_u64 := fun s _ => .ok s
  serialize_u128 := fun s _ => .ok s
  serialize_f32 := fun s _ => .ok s
  serialize_f64 := fun s _ => .ok s
  serialize_char := fun s _ => .ok s
  serialize_str := fun s _ => .ok s
  serialize_bytes := fun s _ => .ok s
  serialize_none := fun s => .ok s
  serialize_some := fun s _ => .ok s
  serialize_unit := fun s => .ok s
  serialize_unit_struct := fun s _ => .ok s
  serialize_unit_variant := fun s _ _ _ => .ok s
  serialize_newtype_struct := fun s _ _ => .ok s
  serialize_newtype_variant := fun s _ _ _ _ => .ok s
  serialize_seq := fun s _ => .ok s
  serialize_tuple := fun s _ => .ok s
  serialize_tuple_struct := fun s _ _ => .ok s
  serialize_tuple_variant := fun s _ _ _ _ => .ok s
  serialize_map := fun s _ => .ok s
  serialize_struct := fun s _ _ => .ok s
  serialize_struct_variant := fun s _ _ _ _ => .ok s
  collect_str := fun s _ => .ok s
  is_human_readable := fun _ => false
  seq_serialize_element := fun s _ => .ok s
  seq_end := fun s => .ok s
  tuple_serialize_element := fun s _ => .ok s
  tuple_end := fun s => .ok s
  tuple_struct_serialize_field := fun s _ => .ok s
  tuple_struct_end := fun s => .ok s
  tuple_variant_serialize_field := fun s _ => .ok s
  tuple_variant_end := fun s => .ok s
  map_serialize_key := fun s _ => .ok s
  map_serialize_value := fun s _ => .ok s
  map_serialize_entry := fun s _ _ => .ok s
  map_end := fun s => .ok s
  struct_serialize_field := fun s _ _ => .ok s
  struct_skip_field := fun s _ => .ok s
  struct_end := fun s => .ok s
  struct_variant_serialize_field := fun s _ _ => .ok s
  struct_variant_skip_field := fun s _ => .ok s
  struct_variant_end := fun s => .ok s
  custom := fun _ => 0

/-- A concrete executable consumer codec over `Nat` states: every concrete
operation succeeds, `is_human_readable` answers `false`. -/
def demoDe : DeCodec where
  D := Nat
  DError := Nat
  VisH := Nat
  SeedH := Nat
  DeH := Nat
  SeqAccessH := Nat
  MapAccessH := Nat
  EnumAccessH := Nat
  SeedT := Nat
  SeedV := Nat
  VisT := Nat
  VisV := Nat
  SeqA := Nat
  SeqAErr := Nat
  MapA := Nat
  MapAErr := Nat
  EnumA := Nat
  EnumAErr := Nat
  EnumVar := Nat
  deserialize_any := fun _ _ => .ok ()
  deserialize_bool := fun _ _ => .ok ()
  deserialize_i8 := fun _ _ => .ok ()
  deserialize_i16 := fun _ _ => .ok ()
  deserialize_i32 := fun _ _ => .ok ()
  deserialize_i64 := fun _ _ => .ok ()
  deserialize_i128 := fun _ _ => .ok ()
  deserialize_u8 := fun _ _ => .ok ()
  deserialize_u16 := fun _ _ => .ok ()
  deserialize_u32 := fun _ _ => .ok ()
  deserialize_u64 := fun _ _ => .ok ()
  deserialize_u128 := fun _ _ => .ok ()
  deserialize_f32 := fun _ _ => .ok ()
  deserialize_f64 := fun _ _ => .ok ()
  deserialize_char := fun _ _ => .ok ()
  deserialize_str := fun _ _ => .ok ()
  deserialize_string := fun _ _ => .ok ()
  deserialize_bytes := fun _ _ => .ok ()
  deserialize_byte_buf := fun _ _ => .ok ()
  deserialize_option := fun _ _ => .ok ()
  deserialize_unit := fun _ _ => .ok ()
  deserialize_unit_struct := fun _ _ _ => .ok ()
  deserialize_newtype_struct := fun _ _ _ => .ok ()
  deserialize_seq := fun _ _ => .ok ()
  deserialize_tuple := fun _ _ _ => .ok ()
  deserialize_tuple_struct := fun _ _ _ _ => .ok ()
  deserialize_map := fun _ _ => .ok ()
  deserialize_struct := fun _ _ _ _ => .ok ()
  deserialize_enum := fun _ _ _ _ => .ok ()
  deserialize_identifier := fun _ _ => .ok ()
  deserialize_ignored_any := fun _ _ => .ok ()
  is_human_readable := fun _ => false
  seed_deserialize := fun t _ => .ok t
  visit_bool := fun v _ => .ok v
  visit_i8 := fun v _ => .ok v
  visit_i16 := fun v _ => .ok v
  visit_i32 := fun v _ => .ok v
  visit_i64 := fun v _ => .ok v
  visit_i128 := fun v _ => .ok v
  visit_u8 := fun v _ => .ok v
  visit_u16 := fun v _ => .ok v
  visit_u32 := fun v _ => .ok v
  visit_u64 := fun v _ => .ok v
  visit_u128 := fun v _ => .ok v
  visit_f32 := fun v _ => .ok v
  visit_f64 := fun v _ => .ok v
  visit_char := fun v _ => .ok v
  visit_str := fun v _ => .ok v
  visit_borrowed_str := fun v _ => .ok v
  visit_string := fun v _ => .ok v
  visit_bytes := fun v _ => .ok v
  visit_borrowed_bytes := fun v _ => .ok v
  visit_byte_buf := fun v _ => .ok v
  visit_none := fun v => .ok v
  visit_some := fun v _ => .ok v
  visit_unit := fun v => .ok v
  visit_newtype_struct := fun v _ => .ok v
  visit_seq := fun v _ => .ok v
  visit_map := fun v _ => .ok v
  visit_enum := fun v _ => .ok v
  seq_next_element_seed := fun a _ => .ok (a, some ())
  seq_size_hint := fun _ => none
  map_next_key_seed := fun a _ => .ok (a, some ())
  map_next_value_seed := fun a _ => .ok a
  map_next_entry_seed := fun a _ _ => .ok (a, some ())
  map_size_hint := fun _ => none
  enum_variant_seed := fun a _ => .ok a
  variant_unit_variant := fun _ => .ok ()
  variant_newtype_variant_seed := fun _ _ => .ok ()
  variant_tuple_variant := fun _ _ _ => .ok ()
  variant_struct_variant := fun _ _ _ => .ok ()
  custom := fun _ => 0

namespace EnumOp

variable {C : DeCodec}

/-- Whether the operation's `if let` pattern matches the given enum-access
bridge state. -/
def matchesStage (op : EnumOp C) (st : InplaceEnumAccess C) : Bool :=
  match op, st with
  | .variant_seed _, InplaceEnumAccess.EnumAccess _ => true
  | .unit_variant, InplaceEnumAccess.VariantAccess _ => true
  | .newtype_variant _, InplaceEnumAccess.VariantAccess _ => true
  | .tuple_variant _ _, InplaceEnumAccess.VariantAccess _ => true
  | .struct_variant _ _, InplaceEnumAccess.VariantAccess _ => true
  | _, _ => false

end EnumOp


namespace VisOp

variable {C : DeCodec}

/-- The concrete visitor callback that a `Visitor` facade operation forwards
to — used to state that a returned error other than the wrong-stage `Visitor`
status is exactly the concrete callback's own failure. -/
def concreteCall : VisOp C → C.VisT → Except DeserializeError C.VisV
  | .visit_bool v => fun visitor => C.visit_bool visitor v
  | .visit_i8 v => fun visitor => C.visit_i8 visitor v
  | .visit_i16 v => fun visitor => C.visit_i16 visitor v
  | .visit_i32 v => fun visitor => C.visit_i32 visitor v
  | .visit_i64 v => fun visitor => C.visit_i64 visitor v
  | .visit_i128 v => fun visitor => C.visit_i128 visitor v
  | .visit_u8 v => fun visitor => C.visit_u8 visitor v
  | .visit_u16 v => fun visitor => C.visit_u16 visitor v
  | .visit_u32 v => fun visitor => C.visit_u32 visitor v
  | .visit_u64 v => fun visitor => C.visit_u64 visitor v
  | .visit_u128 v => fun visitor => C.visit_u128 visitor v
  | .visit_f32 v => fun visitor => C.visit_f32 visitor v
  | .visit_f64 v => fun visitor => C.visit_f64 visitor v
  | .visit_char v => fun visitor => C.visit_char visitor v
  | .visit_str v => fun visitor => C.visit_str visitor v
  | .visit_borrowed_str v => fun visitor => C.visit_borrowed_str visitor v
  | .visit_string v => fun visitor => C.visit_string visitor v
  | .visit_bytes v => fun visitor => C.visit_bytes visitor v
  | .visit_borrowed_bytes v => fun visitor => C.visit_borrowed_bytes visitor v
  | .visit_byte_buf v => fun visitor => C.visit_byte_buf visitor v
  | .visit_none => fun visitor => C.visit_none visitor
  | .visit_some deserializer => fun visitor => C.visit_some visitor deserializer
  | .visit_unit => fun visitor => C.visit_unit visitor
  | .visit_newtype_struct deserializer =>
    fun visitor => C.visit_newtype_struct visitor deserializer
  | .visit_seq seq => fun visitor => C.visit_seq visitor seq
  | .visit_map map => fun visitor => C.visit_map visitor map
  | .visit_enum data => fun visitor => C.visit_enum visitor data

end VisOp

/-! ## Helper lemmas -/

theorem lem_take_terminal_ready {C : SerCodec} (s : C.S)
    (call : C.S → Except C.Error C.Ok) :
    InplaceSerializer.take_terminal (InplaceSerializer.Serializer s) call
      = specCompleted C (call s) := by
  cases h : call s <;>
    simp [InplaceSerializer.take_terminal, InplaceSerializer.write_with,
      InplaceSerializer.write_error, specCompleted, h]

theorem lem_take_open_ready {C : SerCodec} {T : Type} (s : C.S)
    (f : T → InplaceSerializer C) (call : C.S → Except C.Error T) :
    InplaceSerializer.take_open (InplaceSerializer.Serializer s) f call
      = specCompositeOpen C f (call s) := by
  cases h : call s <;>
    simp [InplaceSerializer.take_open, InplaceSerializer.write_with,
      InplaceSerializer.write_error, specCompositeOpen, h]

theorem lem_take_forward_error {C : DeCodec} (st : InplaceDeserializer C)
    (call : C.D → Except C.DError Unit)
    (h : (InplaceDeserializer.take_forward st call).2 = .error DeserializerError.Error) :
    ∃ e, (InplaceDeserializer.take_forward st call).1 = InplaceDeserializer.Error e := by
  cases st with
  | Deserializer de =>
    rcases hc : call de with u | e <;>
      simp [InplaceDeserializer.take_forward, InplaceDeserializer.write_error, hc] at h ⊢
  | None => simp [InplaceDeserializer.take_forward] at h
  | Error e => simp [InplaceDeserializer.take_forward] at h

theorem lem_take_visit_error {C : DeCodec} (st : InplaceVisitor C)
    (call : C.VisT → Except DeserializeError C.VisV) (err : DeserializeError)
    (h : (InplaceVisitor.take_visit st call).2 = .error err) :
    err = DeserializeError.DeserializerError DeserializerError.Visitor
    ∨ ∃ v, st = InplaceVisitor.Visitor v ∧ call v = .error err := by
  cases st with
  | Visitor v =>
    rcases hc : call v with e | val
    · simp only [InplaceVisitor.take_visit, hc, Except.error.injEq] at h
      exact Or.inr ⟨v, rfl, by rw [hc, h]⟩
    · simp [InplaceVisitor.take_visit, hc] at h
  | None =>
    simp only [InplaceVisitor.take_visit, Except.error.injEq] at h
    exact Or.inl h.symm
  | Value v =>
    simp only [InplaceVisitor.take_visit, Except.error.injEq] at h
    exact Or.inl h.symm

/-! ## Claim theorems -/

/-- Claim C1: for every scalar operation (bool, i8–i128, u8–u128, f32, f64,
char, str, bytes) and every value, driving a freshly created bridge
(`InplaceSerializer::Serializer(s)`) through the dynamic facade's serialize
operation produces exactly the concrete codec's native result: the bridge
ends in `Ok(ok)` exactly when the native call returns `Ok(ok)` and in
`Error(e)` exactly when it returns `Err(e)` (with the generic `Error` status
returned in that case) — `specCompleted` states this correspondence. -/
theorem C1_scalar_facade_refines_native (C : SerCodec) (s : C.S) :
    (∀ v, InplaceSerializer.dyn_serialize_bool (InplaceSerializer.Serializer s) v
        = specCompleted C (C.serialize_bool s v))
  ∧ (∀ v, InplaceSerializer.dyn_serialize_i8 (InplaceSerializer.Serializer s) v
        = specCompleted C (C.serialize_i8 s v))
  ∧ (∀ v, InplaceSerializer.dyn_serialize_i16 (InplaceSerializer.Serializer s) v
        = specCompleted C (C.serialize_i16 s v))
  ∧ (∀ v, InplaceSerializer.dyn_serialize_i32 (InplaceSerializer.Serializer s) v
        = specCompleted C (C.serialize_i32 s v))
  ∧ (∀ v, InplaceSerializer.dyn_serialize_i64 (InplaceSerializer.Serializer s) v
        = specCompleted C (C.serialize_i64 s v))
  ∧ (∀ v, InplaceSerializer.dyn_serialize_i128 (InplaceSerializer.Serializer s) v
        = specCompleted C (C.serialize_i128 s v))
  ∧ (∀ v, InplaceSerializer.dyn_serialize_u8 (InplaceSerializer.Serializer s) v
        = specCompleted C (C.serialize_u8 s v))
  ∧ (∀ v, InplaceSerializer.dyn_serialize_u16 (InplaceSerializer.Serializer s) v
        = specCompleted C (C.serialize_u16 s v))
  ∧ (∀ v, InplaceSerializer.dyn_serialize_u32 (InplaceSerializer.Serializer s) v
        = specCompleted C (C.serialize_u32 s v))
  ∧ (∀ v, InplaceSerializer.dyn_serialize_u64 (InplaceSerializer.Serializer s) v
        = specCompleted C (C.serialize_u64 s v))
  ∧ (∀ v, InplaceSerializer.dyn_serialize_u128 (InplaceSerializer.Serializer s) v
        = specCompleted C (C.serialize_u128 s v))
  ∧ (∀ v, InplaceSerializer.dyn_serialize_f32 (InplaceSerializer.Serializer s) v
        = specCompleted C (C.serialize_f32 s v))
  ∧ (∀ v, InplaceSerializer.dyn_serialize_f64 (InplaceSerializer.Serializer s) v
        = specCompleted C (C.serialize_f64 s v))
  ∧ (∀ v, InplaceSerializer.dyn_serialize_char (InplaceSerializer.Serializer s) v
        = specCompleted C (C.serialize_char s v))
  ∧ (∀ v, InplaceSerializer.dyn_serialize_str (InplaceSerializer.Serializer s) v
        = specCompleted C (C.serialize_str s v))
  ∧ (∀ v, InplaceSerializer.dyn_serialize_bytes (InplaceSerializer.Serializer s) v
        = specCompleted C (C.serialize_bytes s v)) :=
  ⟨fun v => lem_take_terminal_ready s _,
   fun v => lem_take_terminal_ready s _,
   fun v => lem_take_terminal_ready s _,
   fun v => lem_take_terminal_ready s _,
   fun v => lem_take_terminal_ready s _,
   fun v => lem_take_terminal_ready s _,
   fun v => lem_take_terminal_ready s _,
   fun v => lem_take_terminal_ready s _,
   fun v => lem_take_terminal_ready s _,
   fun v => lem_take_terminal_ready s _,
   fun v => lem_take_terminal_ready s _,
   fun v => lem_take_terminal_ready s _,
   fun v => lem_take_terminal_ready s _,
   fun v => lem_take_terminal_ready s _,
   fun v => lem_take_terminal_ready s _,
   fun v => lem_take_terminal_ready s _⟩

/-- Claim C2: every producer-bridge call made in the `CodecReady` tag takes
ownership of the codec (leaving the `None` placeholder), invokes the matching
concrete operation once, and stores the result under exactly one new tag —
the composite tag for the seven composite-opening operations, `Ok` for every
terminal operation, and `Error` (returning the generic `Error` status) on
concrete failure — as described by `specRootOutcome`. -/
theorem C2_ready_call_stores_result (C : SerCodec) (op : SerOp C) (s : C.S)
    (h : op.isRootOp = true) :
    InplaceSerializer.mem_take (InplaceSerializer.Serializer s)
        = (InplaceSerializer.Serializer s, InplaceSerializer.None)
  ∧ SerOp.apply op (InplaceSerializer.Serializer s) = SerOp.specRootOutcome op s := by
  refine ⟨rfl, ?_⟩
  cases op <;>
    first
    | exact Bool.noConfusion h
    | (simp only [SerOp.apply, SerOp.specRootOutcome,
        InplaceSerializer.dyn_serialize_bool, InplaceSerializer.dyn_serialize_i8,
        InplaceSerializer.dyn_serialize_i16, InplaceSerializer.dyn_serialize_i32,
        InplaceSerializer.dyn_serialize_i64, InplaceSerializer.dyn_serialize_i128,
        InplaceSerializer.dyn_serialize_u8, InplaceSerializer.dyn_serialize_u16,
        InplaceSerializer.dyn_serialize_u32, InplaceSerializer.dyn_serialize_u64,
        InplaceSerializer.dyn_serialize_u128, InplaceSerializer.dyn_serialize_f32,
        InplaceSerializer.dyn_serialize_f64, InplaceSerializer.dyn_serialize_char,
        InplaceSerializer.dyn_serialize_str, InplaceSerializer.dyn_serialize_bytes,
        InplaceSerializer.dyn_serialize_none, InplaceSerializer.dyn_serialize_some,
        InplaceSerializer.dyn_serialize_unit, InplaceSerializer.dyn_serialize_unit_struct,
        InplaceSerializer.dyn_serialize_unit_variant,
        InplaceSerializer.dyn_serialize_newtype_struct,
        InplaceSerializer.dyn_serialize_newtype_variant, InplaceSerializer.dyn_collect_str,
        InplaceSerializer.dyn_serialize_seq, InplaceSerializer.dyn_serialize_tuple,
        InplaceSerializer.dyn_serialize_tuple_struct,
        InplaceSerializer.dyn_serialize_tuple_variant, InplaceSerializer.dyn_serialize_map,
        InplaceSerializer.dyn_serialize_struct,
        InplaceSerializer.dyn_serialize_struct_variant];
       first
       | exact lem_take_terminal_ready s _
       | exact lem_take_open_ready s _ _)

/-- Witness for C2 at a concrete codec, operation and state. -/
theorem C2_ready_call_stores_result_witness :
    SerOp.isRootOp (SerOp.serialize_seq (C := demoSer) (some 3)) = true
  ∧ SerOp.apply (SerOp.serialize_seq (C := demoSer) (some 3))
        (InplaceSerializer.Serializer ((5 : Nat) : demoSer.S))
      = SerOp.specRootOutcome (SerOp.serialize_seq (some 3)) ((5 : Nat) : demoSer.S) :=
  ⟨rfl,
    (C2_ready_call_stores_result demoSer (SerOp.serialize_seq (some 3))
      ((5 : Nat) : demoSer.S) rfl).2⟩

/-- Claim C10: the pointer-tagging scheme of `SerializeError` is a lossless
round trip — `decode (encode e) = some e` for each of the nine status
variants, and converting a status into a `SerializeError` via `From` and back
via `into_string`/`as_string` recovers exactly the original status (the
`Err`-of-status branch, never a boxed string). -/
theorem C10_encode_decode_roundtrip (e : SerializerError) :
    SerializeError.decode (SerializeError.encode e) = some e
  ∧ SerializeErrorRepr.into_string (SerializeErrorRepr.fromStatus e) = .error e
  ∧ SerializeErrorRepr.as_string (SerializeErrorRepr.fromStatus e) = .error e := by
  have h8 : Nat.log2 8 = 3 := by simp [Nat.log2]
  cases e <;>
    refine ⟨?_, ?_, ?_⟩ <;>
    simp [SerializeError.decode, SerializeError.encode, SerializerError.disc,
      SerializeErrorRepr.into_string, SerializeErrorRepr.as_string,
      SerializeErrorRepr.fromStatus, stringAlign, h8]

/-- Claim C3: every `Result`-returning facade operation, called on a bridge
whose tag is already Completed (`Ok`/`Value`) or Failed (`Error`), returns the
wrong-stage status of its facade kind, never `Ok` — on the producer bridge,
on the consumer bridges, and hence also for every call issued after a
successful `dyn_end` (which leaves the producer bridge in `Ok`).  The
returned status is a constant, independent of every concrete codec operation,
so the wrapped codec is never re-invoked. -/
theorem C3_done_bridge_rejects_all_calls :
    (∀ (C : SerCodec) (op : SerOp C) (st : InplaceSerializer C),
      ((∃ o, st = InplaceSerializer.Ok o) ∨ (∃ e, st = InplaceSerializer.Error e)) →
      (SerOp.apply op st).2 = .error op.facadeKind)
  ∧ (∀ (C : DeCodec) (op : DeOp C) (e : C.DError),
      (DeOp.apply op (InplaceDeserializer.Error e)).2
        = .error DeserializerError.Deserializer)
  ∧ (∀ (C : DeCodec) (v : C.SeedV) (d : C.DeH),
      (InplaceDeserializeSeed.dyn_deserialize (InplaceDeserializeSeed.Value v) d).2
        = .error (DeserializeError.DeserializerError DeserializerError.DeserializeSeed))
  ∧ (∀ (C : DeCodec) (op : VisOp C) (v : C.VisV),
      (VisOp.apply op (InplaceVisitor.Value v)).2
        = .error (DeserializeError.DeserializerError DeserializerError.Visitor))
  ∧ (∀ (C : DeCodec) (e : C.SeqAErr) (seed : C.SeedH),
      (InplaceSeqAccess.dyn_next_element (InplaceSeqAccess.Error e) seed).2
        = .error DeserializerError.SeqAccess)
  ∧ (∀ (C : DeCodec) (op : MapOp C) (e : C.MapAErr),
      (MapOp.apply op (InplaceMapAccess.Error e)).2 = .error DeserializerError.MapAccess)
  ∧ (∀ (C : DeCodec) (op : EnumOp C) (e : C.EnumAErr),
      (EnumOp.apply op (InplaceEnumAccess.Error e)).2 = .error op.facadeKind) := by
  refine ⟨?_, ?_, ?_, ?_, ?_, ?_, ?_⟩
  · rintro C op st (⟨o, rfl⟩ | ⟨e, rfl⟩) <;> cases op <;> rfl
  · intro C op e; cases op <;> rfl
  · intro C v d; rfl
  · intro C op v; cases op <;> rfl
  · intro C e seed; rfl
  · intro C op e; cases op <;> rfl
  · intro C op e; cases op <;> rfl

/-- Witness for C3 at a concrete codec, operation and Completed state. -/
theorem C3_done_bridge_rejects_all_calls_witness :
    (SerOp.apply (SerOp.serialize_bool (C := demoSer) true)
        (InplaceSerializer.Ok ((4 : Nat) : demoSer.Ok))).2
      = .error SerializerError.Serializer :=
  C3_done_bridge_rejects_all_calls.1 demoSer (SerOp.serialize_bool true)
    (InplaceSerializer.Ok ((4 : Nat) : demoSer.Ok)) (Or.inl ⟨((4 : Nat) : demoSer.Ok), rfl⟩)

/-- Counterexample to claim C4 as stated: `dyn_serialize_element` on a
`SerializeSeq`-tagged bridge with a succeeding codec returns successfully and
leaves the bridge in the very same tag (indeed the very same state) — the
call read the current tag but did not leave the bridge in a new tag. -/
theorem C4_counterexample :
    InplaceSerializer.seq_dyn_serialize_element
        (InplaceSerializer.SerializeSeq (C := demoSer) ((0 : Nat) : demoSer.SeqS))
        ((0 : Nat) : demoSer.Val)
      = (InplaceSerializer.SerializeSeq (C := demoSer) ((0 : Nat) : demoSer.SeqS), Except.ok ())
  ∧ (InplaceSerializer.seq_dyn_serialize_element
        (InplaceSerializer.SerializeSeq (C := demoSer) ((0 : Nat) : demoSer.SeqS))
        ((0 : Nat) : demoSer.Val)).1.tag
      = (InplaceSerializer.SerializeSeq (C := demoSer) ((0 : Nat) : demoSer.SeqS)).tag :=
  ⟨rfl, rfl⟩

/-- Claim C4 (amended): every facade call leaves the bridge holding exactly
one tag, but the element/field/key/value/entry/skip sub-facade calls and the
consumer access calls check the tag by reference rather than installing a new
one: a wrong-stage call returns the kind status and leaves the bridge state
(hence its tag) entirely unchanged, and a matching call either keeps the tag
unchanged with the concrete codec succeeding, or — exactly when the concrete
codec fails — moves the bridge to the `Error` tag, storing the concrete error
and returning the generic `Error` status. -/
theorem C4_amended_ref_checking_calls_keep_tag :
    (∀ (C : SerCodec) (op : SerOp C) (st : InplaceSerializer C),
      op.takesOwnership = false →
      (op.matchesStage st = false →
        SerOp.apply op st = (st, .error op.facadeKind))
      ∧ (op.matchesStage st = true →
        ((SerOp.apply op st).1.tag = st.tag ∧ (SerOp.apply op st).2 = .ok ())
        ∨ (∃ e, (SerOp.apply op st).1 = InplaceSerializer.Error e
            ∧ (SerOp.apply op st).2 = .error SerializerError.Error)))
  ∧ (∀ (C : DeCodec) (st : InplaceSeqAccess C) (seed : C.SeedH),
      ((∀ a, st ≠ InplaceSeqAccess.SeqAccess a) →
        InplaceSeqAccess.dyn_next_element st seed
          = (st, .error DeserializerError.SeqAccess))
      ∧ (∀ a, st = InplaceSeqAccess.SeqAccess a →
        ((InplaceSeqAccess.dyn_next_element st seed).1.tag = st.tag
          ∧ ∃ u, (InplaceSeqAccess.dyn_next_element st seed).2 = .ok u)
        ∨ (∃ e, (InplaceSeqAccess.dyn_next_element st seed).1 = InplaceSeqAccess.Error e
            ∧ (InplaceSeqAccess.dyn_next_element st seed).2
              = .error DeserializerError.Error)))
  ∧ (∀ (C : DeCodec) (st : InplaceMapAccess C) (seed : C.SeedH),
      ((∀ a, st ≠ InplaceMapAccess.MapAccess a) →
        InplaceMapAccess.dyn_next_key st seed = (st, .error DeserializerError.MapAccess))
      ∧ (∀ a, st = InplaceMapAccess.MapAccess a →
        ((InplaceMapAccess.dyn_next_key st seed).1.tag = st.tag
          ∧ ∃ u, (InplaceMapAccess.dyn_next_key st seed).2 = .ok u)
        ∨ (∃ e, (InplaceMapAccess.dyn_next_key st seed).1 = InplaceMapAccess.Error e
            ∧ (InplaceMapAccess.dyn_next_key st seed).2
              = .error DeserializerError.Error)))
  ∧ (∀ (C : DeCodec) (st : InplaceMapAccess C) (seed : C.SeedH),
      ((∀ a, st ≠ InplaceMapAccess.MapAccess a) →
        InplaceMapAccess.dyn_next_value st seed = (st, .error DeserializerError.MapAccess))
      ∧ (∀ a, st = InplaceMapAccess.MapAccess a →
        ((InplaceMapAccess.dyn_next_value st seed).1.tag = st.tag
          ∧ (InplaceMapAccess.dyn_next_value st seed).2 = .ok ())
        ∨ (∃ e, (InplaceMapAccess.dyn_next_value st seed).1 = InplaceMapAccess.Error e
            ∧ (InplaceMapAccess.dyn_next_value st seed).2
              = .error DeserializerError.Error)))
  ∧ (∀ (C : DeCodec) (st : InplaceMapAccess C) (kseed vseed : C.SeedH),
      ((∀ a, st ≠ InplaceMapAccess.MapAccess a) →
        InplaceMapAccess.dyn_next_entry st kseed vseed
          = (st, .error DeserializerError.MapAccess))
      ∧ (∀ a, st = InplaceMapAccess.MapAccess a →
        ((InplaceMapAccess.dyn_next_entry st kseed vseed).1.tag = st.tag
          ∧ ∃ u, (InplaceMapAccess.dyn_next_entry st kseed vseed).2 = .ok u)
        ∨ (∃ e, (InplaceMapAccess.dyn_next_entry st kseed vseed).1
              = InplaceMapAccess.Error e
            ∧ (InplaceMapAccess.dyn_next_entry st kseed vseed).2
              = .error DeserializerError.Error))) := by
  refine ⟨?_, ?_, ?_, ?_, ?_⟩
  · rintro C op st h
    cases op <;>
      first
      | exact Bool.noConfusion h
      | (refine ⟨fun hm => ?_, fun hm => ?_⟩ <;>
         cases st <;>
          first
          | exact Bool.noConfusion hm
          | rfl
          | (simp only [SerOp.apply, InplaceSerializer.seq_dyn_serialize_element,
              InplaceSerializer.tuple_dyn_serialize_element,
              InplaceSerializer.tuple_struct_dyn_serialize_field,
              InplaceSerializer.tuple_variant_dyn_serialize_field,
              InplaceSerializer.map_dyn_serialize_key,
              InplaceSerializer.map_dyn_serialize_value,
              InplaceSerializer.map_dyn_serialize_entry,
              InplaceSerializer.struct_dyn_serialize_field,
              InplaceSerializer.struct_dyn_skip_field,
              InplaceSerializer.struct_variant_dyn_serialize_field,
              InplaceSerializer.struct_variant_dyn_skip_field,
              InplaceSerializer.write_error]
             <;> split <;>
              first
              | exact Or.inl ⟨rfl, rfl⟩
              | exact Or.inr ⟨_, rfl, rfl⟩))
  · intro C st seed
    refine ⟨fun hm => ?_, fun a ha => ?_⟩
    · cases st with
      | Error e => rfl
      | SeqAccess a => exact absurd rfl (hm a)
    · subst ha
      simp only [InplaceSeqAccess.dyn_next_element]
      split
      · exact Or.inl ⟨rfl, _, rfl⟩
      · exact Or.inr ⟨_, rfl, rfl⟩
  · intro C st seed
    refine ⟨fun hm => ?_, fun a ha => ?_⟩
    · cases st with
      | Error e => rfl
      | MapAccess a => exact absurd rfl (hm a)
    · subst ha
      simp only [InplaceMapAccess.dyn_next_key]
      split
      · exact Or.inl ⟨rfl, _, rfl⟩
      · exact Or.inr ⟨_, rfl, rfl⟩
  · intro C st seed
    refine ⟨fun hm => ?_, fun a ha => ?_⟩
    · cases st with
      | Error e => rfl
      | MapAccess a => exact absurd rfl (hm a)
    · subst ha
      simp only [InplaceMapAccess.dyn_next_value]
      split
      · exact Or.inl ⟨rfl, rfl⟩
      · exact Or.inr ⟨_, rfl, rfl⟩
  · intro C st kseed vseed
    refine ⟨fun hm => ?_, fun a ha => ?_⟩
    · cases st with
      | Error e => rfl
      | MapAccess a => exact absurd rfl (hm a)
    · subst ha
      simp only [InplaceMapAccess.dyn_next_entry]
      split
      · exact Or.inl ⟨rfl, _, rfl⟩
      · exact Or.inr ⟨_, rfl, rfl⟩

/-- Witness for the amended C4 at a concrete codec, operation and matching
state, discharging both hypotheses. -/
theorem C4_amended_ref_checking_calls_keep_tag_witness :
    ((SerOp.apply (SerOp.seq_element (C := demoSer) ((1 : Nat) : demoSer.Val))
        (InplaceSerializer.SerializeSeq ((2 : Nat) : demoSer.SeqS))).1.tag
        = (InplaceSerializer.SerializeSeq (C := demoSer) ((2 : Nat) : demoSer.SeqS)).tag
      ∧ (SerOp.apply (SerOp.seq_element (C := demoSer) ((1 : Nat) : demoSer.Val))
          (InplaceSerializer.SerializeSeq ((2 : Nat) : demoSer.SeqS))).2 = .ok ())
    ∨ (∃ e, (SerOp.apply (SerOp.seq_element (C := demoSer) ((1 : Nat) : demoSer.Val))
          (InplaceSerializer.SerializeSeq ((2 : Nat) : demoSer.SeqS))).1
            = InplaceSerializer.Error e
        ∧ (SerOp.apply (SerOp.seq_element (C := demoSer) ((1 : Nat) : demoSer.Val))
          (InplaceSerializer.SerializeSeq ((2 : Nat) : demoSer.SeqS))).2
            = .error SerializerError.Error) :=
  (C4_amended_ref_checking_calls_keep_tag.1 demoSer
    (SerOp.seq_element ((1 : Nat) : demoSer.Val))
    (InplaceSerializer.SerializeSeq ((2 : Nat) : demoSer.SeqS)) rfl).2 rfl

/-- Counterexample to claim C5 as stated: a facade call on a Failed producer
bridge (`Error` tag) destroys the stored concrete error — `mem::take` swaps in
the `None` placeholder before the stage check, and the mismatching taken
state (holding the error) is dropped.  After the wrong-stage call the bridge
is `None`, not `Error`, so the error can no longer be retrieved. -/
theorem C5_counterexample :
    InplaceSerializer.dyn_serialize_bool
        (InplaceSerializer.Error (C := demoSer) ((7 : Nat) : demoSer.Error)) true
      = (InplaceSerializer.None, Except.error SerializerError.Serializer)
  ∧ (InplaceSerializer.dyn_serialize_bool
        (InplaceSerializer.Error (C := demoSer) ((7 : Nat) : demoSer.Error)) true).1
      ≠ InplaceSerializer.Error (C := demoSer) ((7 : Nat) : demoSer.Error) :=
  ⟨rfl, fun hx => InplaceSerializer.noConfusion hx⟩

/-- Claim C5 (amended): only the reference-checking facade calls (the
composite element/field/key/value/entry/skip calls and the seq/map access
calls) preserve a Failed bridge's stored error across a wrong-stage call;
every ownership-taking call (`Serializer`-level calls and `dyn_end` on the
producer, every `Deserializer`-level call and every enum/variant access call
on the consumer) issued on a Failed bridge drops the stored concrete error
and leaves the bridge in the `None` placeholder, where the error has been
reclaimed by the drop rather than staying retrievable. -/
theorem C5_amended_error_retention_by_call_kind :
    (∀ (C : SerCodec) (op : SerOp C) (e : C.Error),
      (SerOp.apply op (InplaceSerializer.Error e)).1
        = if op.takesOwnership then InplaceSerializer.None else InplaceSerializer.Error e)
  ∧ (∀ (C : DeCodec) (op : DeOp C) (e : C.DError),
      (DeOp.apply op (InplaceDeserializer.Error e)).1 = InplaceDeserializer.None)
  ∧ (∀ (C : DeCodec) (e : C.SeqAErr) (seed : C.SeedH),
      (InplaceSeqAccess.dyn_next_element (InplaceSeqAccess.Error e) seed).1
        = InplaceSeqAccess.Error e)
  ∧ (∀ (C : DeCodec) (op : MapOp C) (e : C.MapAErr),
      (MapOp.apply op (InplaceMapAccess.Error e)).1 = InplaceMapAccess.Error e)
  ∧ (∀ (C : DeCodec) (op : EnumOp C) (e : C.EnumAErr),
      (EnumOp.apply op (InplaceEnumAccess.Error e)).1 = InplaceEnumAccess.None) := by
  refine ⟨?_, ?_, ?_, ?_, ?_⟩
  · intro C op e; cases op <;> rfl
  · intro C op e; cases op <;> rfl
  · intro C e seed; rfl
  · intro C op e; cases op <;> rfl
  · intro C op e; cases op <;> rfl

/-- Claim C6: the wrong-stage status returned by a facade call identifies the
facade kind of that call (`Serializer` for `Serializer`-level calls,
`SerializeSeq` for the seq sub-facade, … and analogously on the consumer
side), for every starting tag that does not match; only a captured concrete
failure produces the generic `SerializerError::Error` /
`DeserializerError::Error` status — on the producer bridge and on the four
consumer bridges that store errors the bridge then holds the concrete error,
and on the seed/visitor bridges (which store no error) any returned error
other than their wrong-stage status is exactly the concrete callback's own
failure; and both status enumerations are closed and payload-free. -/
theorem C6_wrong_stage_status_names_facade_kind :
    (∀ (C : SerCodec) (op : SerOp C) (st : InplaceSerializer C),
      op.matchesStage st = false → (SerOp.apply op st).2 = .error op.facadeKind)
  ∧ (∀ (C : SerCodec) (op : SerOp C), op.facadeKind ≠ SerializerError.Error)
  ∧ (∀ (C : SerCodec) (op : SerOp C) (st : InplaceSerializer C),
      (SerOp.apply op st).2 = .error SerializerError.Error →
      ∃ e, (SerOp.apply op st).1 = InplaceSerializer.Error e)
  ∧ (∀ (C : DeCodec) (op : DeOp C) (st : InplaceDeserializer C),
      (∀ d, st ≠ InplaceDeserializer.Deserializer d) →
      (DeOp.apply op st).2 = .error DeserializerError.Deserializer)
  ∧ (∀ (C : DeCodec) (st : InplaceDeserializeSeed C) (d : C.DeH),
      (∀ t, st ≠ InplaceDeserializeSeed.DeserializeSeed t) →
      (InplaceDeserializeSeed.dyn_deserialize st d).2
        = .error (DeserializeError.DeserializerError DeserializerError.DeserializeSeed))
  ∧ (∀ (C : DeCodec) (op : VisOp C) (st : InplaceVisitor C),
      (∀ v, st ≠ InplaceVisitor.Visitor v) →
      (VisOp.apply op st).2
        = .error (DeserializeError.DeserializerError DeserializerError.Visitor))
  ∧ (∀ (C : DeCodec) (st : InplaceSeqAccess C) (seed : C.SeedH),
      (∀ a, st ≠ InplaceSeqAccess.SeqAccess a) →
      (InplaceSeqAccess.dyn_next_element st seed).2 = .error DeserializerError.SeqAccess)
  ∧ (∀ (C : DeCodec) (op : MapOp C) (st : InplaceMapAccess C),
      (∀ a, st ≠ InplaceMapAccess.MapAccess a) →
      (MapOp.apply op st).2 = .error DeserializerError.MapAccess)
  ∧ (∀ (C : DeCodec) (op : EnumOp C) (st : InplaceEnumAccess C),
      op.matchesStage st = false → (EnumOp.apply op st).2 = .error op.facadeKind)
  ∧ (∀ (C : DeCodec) (op : DeOp C) (st : InplaceDeserializer C),
      (DeOp.apply op st).2 = .error DeserializerError.Error →
      ∃ e, (DeOp.apply op st).1 = InplaceDeserializer.Error e)
  ∧ (∀ (C : DeCodec) (st : InplaceSeqAccess C) (seed : C.SeedH),
      (InplaceSeqAccess.dyn_next_element st seed).2 = .error DeserializerError.Error →
      ∃ e, (InplaceSeqAccess.dyn_next_element st seed).1 = InplaceSeqAccess.Error e)
  ∧ (∀ (C : DeCodec) (op : MapOp C) (st : InplaceMapAccess C),
      (MapOp.apply op st).2 = .error DeserializerError.Error →
      ∃ e, (MapOp.apply op st).1 = InplaceMapAccess.Error e)
  ∧ (∀ (C : DeCodec) (op : EnumOp C) (st : InplaceEnumAccess C),
      (EnumOp.apply op st).2 = .error DeserializerError.Error →
      ∃ e, (EnumOp.apply op st).1 = InplaceEnumAccess.Error e)
  ∧ (∀ (C : DeCodec) (st : InplaceDeserializeSeed C) (d : C.DeH) (err : DeserializeError),
      (InplaceDeserializeSeed.dyn_deserialize st d).2 = .error err →
      err = DeserializeError.DeserializerError DeserializerError.DeserializeSeed
      ∨ ∃ t, st = InplaceDeserializeSeed.DeserializeSeed t
          ∧ C.seed_deserialize t d = .error err)
  ∧ (∀ (C : DeCodec) (op : VisOp C) (st : InplaceVisitor C) (err : DeserializeError),
      (VisOp.apply op st).2 = .error err →
      err = DeserializeError.DeserializerError DeserializerError.Visitor
      ∨ ∃ v, st = InplaceVisitor.Visitor v ∧ VisOp.concreteCall op v = .error err)
  ∧ (∀ k : SerializerError,
      k = SerializerError.Error ∨ k = SerializerError.Serializer
      ∨ k = SerializerError.SerializeSeq ∨ k = SerializerError.SerializeTuple
      ∨ k = SerializerError.SerializeTupleStruct ∨ k = SerializerError.SerializeTupleVariant
      ∨ k = SerializerError.SerializeMap ∨ k = SerializerError.SerializeStruct
      ∨ k = SerializerError.SerializeStructVariant)
  ∧ (∀ k : DeserializerError,
      k = DeserializerError.Error ∨ k = DeserializerError.Deserializer
      ∨ k = DeserializerError.DeserializeSeed ∨ k = DeserializerError.Visitor
      ∨ k = DeserializerError.SeqAccess ∨ k = DeserializerError.MapAccess
      ∨ k = DeserializerError.EnumAccess ∨ k = DeserializerError.VariantAccess) := by
  refine ⟨?_, ?_, ?_, ?_, ?_, ?_, ?_, ?_, ?_, ?_, ?_, ?_, ?_, ?_, ?_, ?_, ?_⟩
  · intro C op st h
    cases op <;> cases st <;> first | exact Bool.noConfusion h | rfl
  · intro C op; cases op <;> exact fun hx => SerializerError.noConfusion hx
  · intro C op st h
    cases op <;> cases st <;>
      (try simp only [SerOp.apply,
        InplaceSerializer.dyn_serialize_bool, InplaceSerializer.dyn_serialize_i8,
        InplaceSerializer.dyn_serialize_i16, InplaceSerializer.dyn_serialize_i32,
        InplaceSerializer.dyn_serialize_i64, InplaceSerializer.dyn_serialize_i128,
        InplaceSerializer.dyn_serialize_u8, InplaceSerializer.dyn_serialize_u16,
        InplaceSerializer.dyn_serialize_u32, InplaceSerializer.dyn_serialize_u64,
        InplaceSerializer.dyn_serialize_u128, InplaceSerializer.dyn_serialize_f32,
        InplaceSerializer.dyn_serialize_f64, InplaceSerializer.dyn_serialize_char,
        InplaceSerializer.dyn_serialize_str, InplaceSerializer.dyn_serialize_bytes,
        InplaceSerializer.dyn_serialize_none, InplaceSerializer.dyn_serialize_some,
        InplaceSerializer.dyn_serialize_unit, InplaceSerializer.dyn_serialize_unit_struct,
        InplaceSerializer.dyn_serialize_unit_variant,
        InplaceSerializer.dyn_serialize_newtype_struct,
        InplaceSerializer.dyn_serialize_newtype_variant, InplaceSerializer.dyn_collect_str,
        InplaceSerializer.dyn_serialize_seq, InplaceSerializer.dyn_serialize_tuple,
        InplaceSerializer.dyn_serialize_tuple_struct,
        InplaceSerializer.dyn_serialize_tuple_variant, InplaceSerializer.dyn_serialize_map,
        InplaceSerializer.dyn_serialize_struct,
        InplaceSerializer.dyn_serialize_struct_variant,
        InplaceSerializer.seq_dyn_serialize_element, InplaceSerializer.seq_dyn_end,
        InplaceSerializer.tuple_dyn_serialize_element, InplaceSerializer.tuple_dyn_end,
        InplaceSerializer.tuple_struct_dyn_serialize_field,
        InplaceSerializer.tuple_struct_dyn_end,
        InplaceSerializer.tuple_variant_dyn_serialize_field,
        InplaceSerializer.tuple_variant_dyn_end,
        InplaceSerializer.map_dyn_serialize_key, InplaceSerializer.map_dyn_serialize_value,
        InplaceSerializer.map_dyn_serialize_entry, InplaceSerializer.map_dyn_end,
        InplaceSerializer.struct_dyn_serialize_field, InplaceSerializer.struct_dyn_skip_field,
        InplaceSerializer.struct_dyn_end,
        InplaceSerializer.struct_variant_dyn_serialize_field,
        InplaceSerializer.struct_variant_dyn_skip_field,
        InplaceSerializer.struct_variant_dyn_end,
        InplaceSerializer.take_terminal, InplaceSerializer.take_open,
        InplaceSerializer.write_with, InplaceSerializer.write_error] at h ⊢) <;>
      (try split at h) <;> simp_all
  · intro C op st h
    cases st with
    | Deserializer d => exact absurd rfl (h d)
    | None => cases op <;> rfl
    | Error e => cases op <;> rfl
  · intro C st d h
    cases st with
    | DeserializeSeed t => exact absurd rfl (h t)
    | None => rfl
    | Value v => rfl
  · intro C op st h
    cases st with
    | Visitor v => exact absurd rfl (h v)
    | None => cases op <;> rfl
    | Value v => cases op <;> rfl
  · intro C st seed h
    cases st with
    | SeqAccess a => exact absurd rfl (h a)
    | Error e => rfl
  · intro C op st h
    cases st with
    | MapAccess a => exact absurd rfl (h a)
    | Error e => cases op <;> rfl
  · intro C op st h
    cases op <;> cases st <;> first | exact Bool.noConfusion h | rfl
  · intro C op st h
    cases op <;>
      (simp only [DeOp.apply,
        InplaceDeserializer.dyn_deserialize_any, InplaceDeserializer.dyn_deserialize_bool,
        InplaceDeserializer.dyn_deserialize_i8, InplaceDeserializer.dyn_deserialize_i16,
        InplaceDeserializer.dyn_deserialize_i32, InplaceDeserializer.dyn_deserialize_i64,
        InplaceDeserializer.dyn_deserialize_128, InplaceDeserializer.dyn_deserialize_u8,
        InplaceDeserializer.dyn_deserialize_u16, InplaceDeserializer.dyn_deserialize_u32,
        InplaceDeserializer.dyn_deserialize_u64, InplaceDeserializer.dyn_deserialize_u128,
        InplaceDeserializer.dyn_deserialize_f32, InplaceDeserializer.dyn_deserialize_f64,
        InplaceDeserializer.dyn_deserialize_char, InplaceDeserializer.dyn_deserialize_str,
        InplaceDeserializer.dyn_deserialize_string,
        InplaceDeserializer.dyn_deserialize_bytes,
        InplaceDeserializer.dyn_deserialize_byte_buf,
        InplaceDeserializer.dyn_deserialize_option, InplaceDeserializer.dyn_deserialize_unit,
        InplaceDeserializer.dyn_deserialize_unit_struct,
        InplaceDeserializer.dyn_deserialize_newtype_struct,
        InplaceDeserializer.dyn_deserialize_seq, InplaceDeserializer.dyn_deserialize_tuple,
        InplaceDeserializer.dyn_deserialize_tuple_struct,
        InplaceDeserializer.dyn_deserialize_map, InplaceDeserializer.dyn_deserialize_struct,
        InplaceDeserializer.dyn_deserialize_enum,
        InplaceDeserializer.dyn_deserialize_identifier,
        InplaceDeserializer.dyn_deserialize_ignored_any] at h ⊢ ;
       exact lem_take_forward_error _ _ h)
  · intro C st seed h
    cases st with
    | Error e => simp [InplaceSeqAccess.dyn_next_element] at h
    | SeqAccess a =>
      rcases hc : C.seq_next_element_seed a seed with e | ⟨a2, out⟩ <;>
        simp [InplaceSeqAccess.dyn_next_element, hc] at h ⊢
  · intro C op st h
    cases op with
    | next_key seed =>
      cases st with
      | Error e => simp [MapOp.apply, InplaceMapAccess.dyn_next_key] at h
      | MapAccess a =>
        rcases hc : C.map_next_key_seed a seed with e | ⟨a2, out⟩ <;>
          simp [MapOp.apply, InplaceMapAccess.dyn_next_key, hc] at h ⊢
    | next_value seed =>
      cases st with
      | Error e => simp [MapOp.apply, InplaceMapAccess.dyn_next_value] at h
      | MapAccess a =>
        rcases hc : C.map_next_value_seed a seed with e | a2 <;>
          simp [MapOp.apply, InplaceMapAccess.dyn_next_value, hc] at h ⊢
    | next_entry kseed vseed =>
      cases st with
      | Error e => simp [MapOp.apply, InplaceMapAccess.dyn_next_entry] at h
      | MapAccess a =>
        rcases hc : C.map_next_entry_seed a kseed vseed with e | ⟨a2, out⟩ <;>
          simp [MapOp.apply, InplaceMapAccess.dyn_next_entry, hc] at h ⊢
  · intro C op st h
    cases op <;> cases st <;>
      (try simp only [EnumOp.apply, InplaceEnumAccess.dyn_variant_seed,
        InplaceEnumAccess.dyn_unit_variant, InplaceEnumAccess.dyn_newtype_variant,
        InplaceEnumAccess.dyn_tuple_variant,
        InplaceEnumAccess.dyn_struct_variant] at h ⊢) <;>
      (try split at h) <;> simp_all
  · intro C st d err h
    cases st with
    | DeserializeSeed t =>
      rcases hc : C.seed_deserialize t d with e | v
      · simp only [InplaceDeserializeSeed.dyn_deserialize, hc, Except.error.injEq] at h
        exact Or.inr ⟨t, rfl, by rw [hc, h]⟩
      · simp [InplaceDeserializeSeed.dyn_deserialize, hc] at h
    | None =>
      simp only [InplaceDeserializeSeed.dyn_deserialize, Except.error.injEq] at h
      exact Or.inl h.symm
    | Value v =>
      simp only [InplaceDeserializeSeed.dyn_deserialize, Except.error.injEq] at h
      exact Or.inl h.symm
  · intro C op st err h
    cases op <;>
      (simp only [VisOp.apply, VisOp.concreteCall,
        InplaceVisitor.dyn_visit_bool, InplaceVisitor.dyn_visit_i8,
        InplaceVisitor.dyn_visit_i16, InplaceVisitor.dyn_visit_i32,
        InplaceVisitor.dyn_visit_i64, InplaceVisitor.dyn_visit_i128,
        InplaceVisitor.dyn_visit_u8, InplaceVisitor.dyn_visit_u16,
        InplaceVisitor.dyn_visit_u32, InplaceVisitor.dyn_visit_u64,
        InplaceVisitor.dyn_visit_u128, InplaceVisitor.dyn_visit_f32,
        InplaceVisitor.dyn_visit_f64, InplaceVisitor.dyn_visit_char,
        InplaceVisitor.dyn_visit_str, InplaceVisitor.dyn_visit_borrowed_str,
        InplaceVisitor.dyn_visit_string, InplaceVisitor.dyn_visit_bytes,
        InplaceVisitor.dyn_visit_borrowed_bytes, InplaceVisitor.dyn_visit_byte_buf,
        InplaceVisitor.dyn_visit_none, InplaceVisitor.dyn_visit_some,
        InplaceVisitor.dyn_visit_unit, InplaceVisitor.dyn_visit_newtype_struct,
        InplaceVisitor.dyn_visit_seq, InplaceVisitor.dyn_visit_map,
        InplaceVisitor.dyn_visit_enum] at h ⊢ ;
       exact lem_take_visit_error _ _ _ h)
  · intro k; cases k <;> simp
  · intro k; cases k <;> simp

/-- Witness for C6 at a concrete codec, operation and non-matching state. -/
theorem C6_wrong_stage_status_names_facade_kind_witness :
    SerOp.matchesStage (SerOp.map_key (C := demoSer) ((1 : Nat) : demoSer.Val))
        (InplaceSerializer.Serializer ((0 : Nat) : demoSer.S)) = false
  ∧ (SerOp.apply (SerOp.map_key (C := demoSer) ((1 : Nat) : demoSer.Val))
        (InplaceSerializer.Serializer ((0 : Nat) : demoSer.S))).2
      = .error SerializerError.SerializeMap :=
  ⟨rfl,
    C6_wrong_stage_status_names_facade_kind.1 demoSer
      (SerOp.map_key ((1 : Nat) : demoSer.Val))
      (InplaceSerializer.Serializer ((0 : Nat) : demoSer.S)) rfl⟩

/-- Claim C7: a stored concrete codec error surfaces exactly once, at the
point where control crosses back from the dynamic facade to the generic
calling convention: in `serde::Serialize::serialize` on a `dyn Serialize`
(and in the consumer seed glue and `visit_some`), if the bridge ends in the
`Error` tag the stored concrete error itself is returned — in preference to
converting the transient status — and only when no concrete error (and no
`Ok`) was captured is the returned status converted via
`into_ser_error`/`into_de_error`. -/
theorem C7_stored_error_surfaces_at_boundary :
    (∀ (C : SerCodec)
        (f : InplaceSerializer C → InplaceSerializer C × SerializeResult Unit) (s : C.S),
      (∀ e r, f (InplaceSerializer.Serializer s) = (InplaceSerializer.Error e, r) →
        dynSerialize_serialize C f s = SerializeOutcome.err e)
      ∧ (∀ o r, f (InplaceSerializer.Serializer s) = (InplaceSerializer.Ok o, r) →
        dynSerialize_serialize C f s = SerializeOutcome.ok o)
      ∧ (∀ st er, f (InplaceSerializer.Serializer s) = (st, Except.error er) →
        st.tag ≠ SerTag.Ok → st.tag ≠ SerTag.Error →
        dynSerialize_serialize C f s = SerializeOutcome.err (er.into_ser_error C)))
  ∧ (∀ (C : DeCodec)
        (f : InplaceDeserializer C → InplaceDeserializer C × DeserializeResult Unit)
        (d : C.D),
      (∀ e r, f (InplaceDeserializer.Deserializer d) = (InplaceDeserializer.Error e, r) →
        dynDeserializeSeed_deserialize C f d = .error e)
      ∧ (∀ st u, f (InplaceDeserializer.Deserializer d) = (st, Except.ok u) →
        (∀ e, st ≠ InplaceDeserializer.Error e) →
        dynDeserializeSeed_deserialize C f d = .ok ())
      ∧ (∀ st er, f (InplaceDeserializer.Deserializer d) = (st, Except.error er) →
        (∀ e, st ≠ InplaceDeserializer.Error e) →
        dynDeserializeSeed_deserialize C f d = .error (er.into_de_error C)))
  ∧ (∀ (C : DeCodec)
        (f : InplaceDeserializer C → InplaceDeserializer C × DeserializeResult Unit)
        (d : C.D),
      (∀ e r, f (InplaceDeserializer.Deserializer d) = (InplaceDeserializer.Error e, r) →
        dynVisitor_visit_some C f d = .error e)
      ∧ (∀ st er, f (InplaceDeserializer.Deserializer d) = (st, Except.error er) →
        (∀ e, st ≠ InplaceDeserializer.Error e) →
        dynVisitor_visit_some C f d = .error (er.into_de_error C))) := by
  refine ⟨fun C f s => ⟨?_, ?_, ?_⟩, fun C f d => ⟨?_, ?_, ?_⟩, fun C f d => ⟨?_, ?_⟩⟩
  · intro e r h; simp only [dynSerialize_serialize, h]
  · intro o r h; simp only [dynSerialize_serialize, h]
  · intro st er h h1 h2
    simp only [dynSerialize_serialize, h]
    cases st with
    | Ok o => exact absurd rfl h1
    | Error e => exact absurd rfl h2
    | _ => rfl
  · intro e r h; simp only [dynDeserializeSeed_deserialize, h]
  · intro st u h h1
    simp only [dynDeserializeSeed_deserialize, h]
  · intro st er h h1
    simp only [dynDeserializeSeed_deserialize, h]
  · intro e r h; simp only [dynVisitor_visit_some, h]
  · intro st er h h1
    simp only [dynVisitor_visit_some, h]

/-- Witness for C7 at concrete codecs and concrete single-outcome drivers. -/
theorem C7_stored_error_surfaces_at_boundary_witness :
    dynSerialize_serialize demoSer
        (fun _ => (InplaceSerializer.Error ((3 : Nat) : demoSer.Error), Except.ok ()))
        ((0 : Nat) : demoSer.S)
      = SerializeOutcome.err ((3 : Nat) : demoSer.Error)
  ∧ dynDeserializeSeed_deserialize demoDe
        (fun _ => (InplaceDeserializer.Error ((2 : Nat) : demoDe.DError), Except.ok ()))
        ((0 : Nat) : demoDe.D)
      = .error ((2 : Nat) : demoDe.DError)
  ∧ dynVisitor_visit_some demoDe
        (fun _ => (InplaceDeserializer.Error ((2 : Nat) : demoDe.DError), Except.ok ()))
        ((0 : Nat) : demoDe.D)
      = .error ((2 : Nat) : demoDe.DError) :=
  ⟨(C7_stored_error_surfaces_at_boundary.1 demoSer
      (fun _ => (InplaceSerializer.Error ((3 : Nat) : demoSer.Error), Except.ok ()))
      ((0 : Nat) : demoSer.S)).1 ((3 : Nat) : demoSer.Error) (Except.ok ()) rfl,
   (C7_stored_error_surfaces_at_boundary.2.1 demoDe
      (fun _ => (InplaceDeserializer.Error ((2 : Nat) : demoDe.DError), Except.ok ()))
      ((0 : Nat) : demoDe.D)).1 ((2 : Nat) : demoDe.DError) (Except.ok ()) rfl,
   (C7_stored_error_surfaces_at_boundary.2.2 demoDe
      (fun _ => (InplaceDeserializer.Error ((2 : Nat) : demoDe.DError), Except.ok ()))
      ((0 : Nat) : demoDe.D)).1 ((2 : Nat) : demoDe.DError) (Except.ok ()) rfl⟩

/-- Claim C8: the `unreachable!` branches in the boundary glue are dead code
under the serde contract: if the driver can return `Ok` only with the bridge
(resp. seed) left in the `Ok` (resp. `Value`) tag, then
`serde::Serialize::serialize` on a `dyn Serialize` never reaches its
`unreachable!`, and neither does `variant_seed`'s `unreachable!` nor the
`expect_err` `Ok`-arm reached from `next_element_seed`. -/
theorem C8_unreachable_branches_dead_under_contract :
    (∀ (C : SerCodec)
        (f : InplaceSerializer C → InplaceSerializer C × SerializeResult Unit) (s : C.S),
      (∀ st r, f (InplaceSerializer.Serializer s) = (st, r) → r = .ok () →
        ∃ o, st = InplaceSerializer.Ok o) →
      dynSerialize_serialize C f s ≠ SerializeOutcome.panicked)
  ∧ (∀ (C : DeCodec)
        (f : InplaceDeserializeSeed C → InplaceDeserializeSeed C × DeserializerResult Unit)
        (t : C.SeedT),
      (∀ st r, f (InplaceDeserializeSeed.DeserializeSeed t) = (st, r) → r = .ok () →
        ∃ v, st = InplaceDeserializeSeed.Value v) →
      dynEnumAccess_variant_seed C f t ≠ VariantSeedOutcome.panicked)
  ∧ (∀ (C : DeCodec)
        (f : InplaceDeserializeSeed C →
          InplaceDeserializeSeed C × DeserializerResult (Option Unit))
        (t : C.SeedT),
      (∀ st r, f (InplaceDeserializeSeed.DeserializeSeed t) = (st, r) → r = .ok (some ()) →
        ∃ v, st = InplaceDeserializeSeed.Value v) →
      dynSeqAccess_next_element_seed C f t ≠ NextElementOutcome.panicked) := by
  refine ⟨?_, ?_, ?_⟩
  · intro C f s hf hpanic
    rcases hfs : f (InplaceSerializer.Serializer s) with ⟨st, r⟩
    simp only [dynSerialize_serialize, hfs] at hpanic
    cases st with
    | Ok o => cases r <;> exact SerializeOutcome.noConfusion hpanic
    | Error e => cases r <;> exact SerializeOutcome.noConfusion hpanic
    | _ =>
      cases r with
      | error er => exact SerializeOutcome.noConfusion hpanic
      | ok u =>
        obtain ⟨o, ho⟩ := hf _ _ hfs rfl
        exact InplaceSerializer.noConfusion ho
  · intro C f t hf hpanic
    rcases hfs : f (InplaceDeserializeSeed.DeserializeSeed t) with ⟨st, r⟩
    simp only [dynEnumAccess_variant_seed, hfs] at hpanic
    cases r with
    | error er => exact VariantSeedOutcome.noConfusion hpanic
    | ok u =>
      cases st with
      | Value v => exact VariantSeedOutcome.noConfusion hpanic
      | None =>
        obtain ⟨v, hv⟩ := hf _ _ hfs rfl
        exact InplaceDeserializeSeed.noConfusion hv
      | DeserializeSeed t2 =>
        obtain ⟨v, hv⟩ := hf _ _ hfs rfl
        exact InplaceDeserializeSeed.noConfusion hv
  · intro C f t hf hpanic
    rcases hfs : f (InplaceDeserializeSeed.DeserializeSeed t) with ⟨st, r⟩
    simp only [dynSeqAccess_next_element_seed, hfs] at hpanic
    cases st with
    | Value v => exact NextElementOutcome.noConfusion hpanic
    | None =>
      cases r with
      | error er => exact NextElementOutcome.noConfusion hpanic
      | ok u =>
        cases u with
        | none => exact NextElementOutcome.noConfusion hpanic
        | some uu =>
          obtain ⟨v, hv⟩ := hf _ _ hfs rfl
          exact InplaceDeserializeSeed.noConfusion hv
    | DeserializeSeed t2 =>
      cases r with
      | error er => exact NextElementOutcome.noConfusion hpanic
      | ok u =>
        cases u with
        | none => exact NextElementOutcome.noConfusion hpanic
        | some uu =>
          obtain ⟨v, hv⟩ := hf _ _ hfs rfl
          exact InplaceDeserializeSeed.noConfusion hv

/-- Witness for C8 at concrete codecs and contract-abiding drivers. -/
theorem C8_unreachable_branches_dead_under_contract_witness :
    dynSerialize_serialize demoSer
        (fun _ => (InplaceSerializer.Ok ((1 : Nat) : demoSer.Ok), Except.ok ()))
        ((0 : Nat) : demoSer.S)
      ≠ SerializeOutcome.panicked
  ∧ dynEnumAccess_variant_seed demoDe
        (fun _ => (InplaceDeserializeSeed.Value ((1 : Nat) : demoDe.SeedV), Except.ok ()))
        ((0 : Nat) : demoDe.SeedT)
      ≠ VariantSeedOutcome.panicked
  ∧ dynSeqAccess_next_element_seed demoDe
        (fun _ =>
          (InplaceDeserializeSeed.Value ((1 : Nat) : demoDe.SeedV), Except.ok (some ())))
        ((0 : Nat) : demoDe.SeedT)
      ≠ NextElementOutcome.panicked :=
  ⟨C8_unreachable_branches_dead_under_contract.1 demoSer
      (fun _ => (InplaceSerializer.Ok ((1 : Nat) : demoSer.Ok), Except.ok ()))
      ((0 : Nat) : demoSer.S)
      (by intro st r h hr; injection h with h1 h2; exact ⟨_, h1.symm⟩),
   C8_unreachable_branches_dead_under_contract.2.1 demoDe
      (fun _ => (InplaceDeserializeSeed.Value ((1 : Nat) : demoDe.SeedV), Except.ok ()))
      ((0 : Nat) : demoDe.SeedT)
      (by intro st r h hr; injection h with h1 h2; exact ⟨_, h1.symm⟩),
   C8_unreachable_branches_dead_under_contract.2.2 demoDe
      (fun _ =>
        (InplaceDeserializeSeed.Value ((1 : Nat) : demoDe.SeedV), Except.ok (some ())))
      ((0 : Nat) : demoDe.SeedT)
      (by intro st r h hr; injection h with h1 h2; exact ⟨_, h1.symm⟩)⟩

/-- Claim C9: the human-readable query is a pure read (`&self` in the source,
so the bridge's tag cannot change): it forwards to the wrapped codec's
`is_human_readable` when the bridge holds the codec, and answers `true` in
every other tag, on the producer and the consumer bridge alike. -/
theorem C9_is_human_readable_pure_read :
    (∀ (C : SerCodec) (s : C.S),
      InplaceSerializer.dyn_is_human_readable (InplaceSerializer.Serializer s)
        = C.is_human_readable s)
  ∧ (∀ (C : SerCodec) (st : InplaceSerializer C),
      (∀ s, st ≠ InplaceSerializer.Serializer s) →
      InplaceSerializer.dyn_is_human_readable st = true)
  ∧ (∀ (C : DeCodec) (d : C.D),
      InplaceDeserializer.dyn_is_human_readable (InplaceDeserializer.Deserializer d)
        = C.is_human_readable d)
  ∧ (∀ (C : DeCodec) (st : InplaceDeserializer C),
      (∀ d, st ≠ InplaceDeserializer.Deserializer d) →
      InplaceDeserializer.dyn_is_human_readable st = true) := by
  refine ⟨fun C s => rfl, ?_, fun C d => rfl, ?_⟩
  · intro C st h
    cases st with
    | Serializer s => exact absurd rfl (h s)
    | _ => rfl
  · intro C st h
    cases st with
    | Deserializer d => exact absurd rfl (h d)
    | _ => rfl

/-- Witness for C9: the demo codec answers `false` when ready (so the call
really forwards), and any other tag answers `true`. -/
theorem C9_is_human_readable_pure_read_witness :
    InplaceSerializer.dyn_is_human_readable
        (InplaceSerializer.Serializer (C := demoSer) ((0 : Nat) : demoSer.S)) = false
  ∧ InplaceSerializer.dyn_is_human_readable
        (InplaceSerializer.Ok (C := demoSer) ((4 : Nat) : demoSer.Ok)) = true
  ∧ InplaceDeserializer.dyn_is_human_readable
        (InplaceDeserializer.Error (C := demoDe) ((2 : Nat) : demoDe.DError)) = true :=
  ⟨C9_is_human_readable_pure_read.1 demoSer ((0 : Nat) : demoSer.S),
   C9_is_human_readable_pure_read.2.1 demoSer
     (InplaceSerializer.Ok ((4 : Nat) : demoSer.Ok))
     (fun s hx => InplaceSerializer.noConfusion hx),
   C9_is_human_readable_pure_read.2.2.2 demoDe
     (InplaceDeserializer.Error ((2 : Nat) : demoDe.DError))
     (fun d hx => InplaceDeserializer.noConfusion hx)⟩
